import Mathlib

/-!
Verification of the order-construction logic of
`processing/test-orders/run-ondemand-request.py`.

The development shallowly embeds the script's data model and operations:
  * JSON documents (`JVal`, `Doc`) with Python-dict association-list
    semantics (`lookupA`, `pyUpdateA`, `pySetA`),
  * the template/request merge (lines 145-150 of the script),
  * satellite-sensor code resolution (`get_satellite_sensor_code`,
    lines 59-77),
  * the per-product processing loop of `process_test_order`
    (lines 81-261) as a trace-producing function,
  * a heap model of the merge for the mutation-freedom guarantee,
  * the textual placeholder rendering (lines 216-232) together with a
    serializer and parser modelling `json.dumps` / `json.loads`.
-/

set_option maxHeartbeats 1000000
set_option maxRecDepth 100000

/-- JSON values as produced by `json.loads` (numbers restricted to
integers, which is all the test-order documents use). -/
inductive JVal where
  | null
  | bool (b : Bool)
  | num (n : Int)
  | str (s : String)
  | arr (elems : List JVal)
  | obj (fields : List (String × JVal))
deriving Inhabited

/-- A parsed JSON object: a Python dict as an association list in
insertion order (keys unique when produced by `json.loads`). -/
abbrev Doc := List (String × JVal)

/-- First-match association-list lookup: Python `d[k]` / `k in d`. -/
def lookupA {α : Type} : List (String × α) → String → Option α
  | [], _ => none
  | (k, v) :: t, key => if k = key then some v else lookupA t key

/-- Python `d1.copy()` followed by `.update(d2)`: keys of `d1` keep their
position but take `d2`'s value when present; keys only in `d2` are
appended in `d2`'s order. -/
def pyUpdateA {α : Type} (d1 d2 : List (String × α)) : List (String × α) :=
  (d1.map fun kv =>
    match lookupA d2 kv.1 with
    | some v => (kv.1, v)
    | none => kv)
  ++ d2.filter fun kv => (lookupA d1 kv.1).isNone

/-- Python `d[k] = v`: overwrite in place or append. -/
def pySetA {α : Type} (d : List (String × α)) (k : String) (v : α) :
    List (String × α) :=
  pyUpdateA d [(k, v)]

/-- Lines 145-150 of the script:
```
new_dict = template_dict.copy()
new_dict.update(request_dict)
new_dict['options'] = template_dict['options'].copy()
new_dict['options'].update(request_dict['options'])
```
`none` models the exceptions raised when either document lacks a
dict-valued `options` key (`KeyError` / `AttributeError` / `TypeError`). -/
def mergeDicts (template_dict request_dict : Doc) : Option Doc :=
  match lookupA template_dict "options", lookupA request_dict "options" with
  | some (JVal.obj tOpts), some (JVal.obj rOpts) =>
    some (pySetA (pyUpdateA template_dict request_dict) "options"
      (JVal.obj (pyUpdateA tOpts rOpts)))
  | _, _ => none

/-- Line 62-64 of the script. -/
def old_prefixes : List String :=
  ["LT4", "LT5", "LE7", "LT8", "LC8", "LO8", "MOD", "MYD"]

/-- Line 65-66 of the script. -/
def collection_prefixes : List String :=
  ["LT04", "LT05", "LE07", "LT08", "LC08", "LO08"]

/-- Python slicing `s[0:n]`: the first `n` characters (all of them when
the string is shorter). -/
def takeChars (s : String) (n : Nat) : String := ⟨s.data.take n⟩

/-- Lines 59-77: `get_satellite_sensor_code`.  Python slicing
`product_id[0:n]` is `takeChars product_id n`; the raised `Exception` is
the `.error` case. -/
def get_satellite_sensor_code (product_id : String) : Except String String :=
  let code3 := takeChars product_id 3
  if code3 ∈ old_prefixes then Except.ok code3
  else
    let code4 := takeChars product_id 4
    if code4 ∈ collection_prefixes then Except.ok code4
    else Except.error ("Satellite-Sensor code (" ++ code4 ++ ") not understood")

/-- Python `str.zfill`: left-pad with zeros to the requested width
(the script only applies it to digit strings). -/
def zfill (width : Nat) (s : String) : String :=
  if width ≤ s.length then s
  else String.mk (List.replicate (width - s.length) '0') ++ s

/-- Line 21 of the script. -/
def MODIS_HOST : String := "e4ftl01.cr.usgs.gov"

/-- Code-point comparison of strings, as Python compares them. -/
def ltCharList : List Char → List Char → Bool
  | [], [] => false
  | [], _ :: _ => true
  | _ :: _, [] => false
  | a :: as, b :: bs =>
    if a.toNat < b.toNat then true
    else if b.toNat < a.toNat then false
    else ltCharList as bs

/-- `a <= b` on strings by code points. -/
def leKey (a b : String) : Bool := !(ltCharList b.data a.data)

/-- Python `str.upper` (ASCII subset). -/
def upperStr (s : String) : String := ⟨s.data.map Char.toUpper⟩

/-- Python whitespace for `str.strip`. -/
def isPyWs (c : Char) : Bool :=
  c == ' ' || c == '\t' || c == '\n' || c == '\r' || c.toNat == 11 || c.toNat == 12

/-- Python `str.strip()`. -/
def stripStr (s : String) : String :=
  ⟨((s.data.dropWhile isPyWs).reverse.dropWhile isPyWs).reverse⟩

/-- One character of Python `str.replace` scanning: does `p` start the
list? -/
def startsWithL : List Char → List Char → Bool
  | [], _ => true
  | _ :: _, [] => false
  | p :: ps, c :: cs => p = c && startsWithL ps cs

/-- Everything before the first occurrence of `p`: Python
`s.split(p)[0]` for a fixed nonempty separator. -/
def beforeSubL (p : List Char) : List Char → List Char
  | [] => []
  | c :: cs => if startsWithL p (c :: cs) then [] else c :: beforeSubL p cs

/-- Python `str.replace`: replace the leftmost occurrence, continue after
the replacement, never rescanning it.  Fuel-indexed so that the kernel can
evaluate it; `pyReplaceL` instantiates the fuel with the input length,
which always suffices because every step consumes at least one character. -/
def replaceFuel : Nat → List Char → List Char → List Char → List Char
  | 0, _, _, s => s
  | _ + 1, _, _, [] => []
  | fuel + 1, p, r, c :: cs =>
    if !p.isEmpty && startsWithL p (c :: cs) then
      r ++ replaceFuel fuel p r (cs.drop (p.length - 1))
    else
      c :: replaceFuel fuel p r cs

/-- `s.replace(p, r)` on character lists. -/
def pyReplaceL (p r s : List Char) : List Char := replaceFuel s.length p r s

/-- Python `s.replace(pat, rep)`. -/
def pyReplace (s pat rep : String) : String := ⟨pyReplaceL pat.data rep.data s.data⟩

/-- Characters the four placeholder tokens are made of. -/
def isTokenChar (c : Char) : Bool := c.isUpper || c == '_'

/-- The placeholder tokens substituted by lines 217-227 of the script. -/
def placeholderTokens : List String :=
  ["ORDER_ID", "SCENE_ID", "PRODUCT_TYPE", "DOWNLOAD_URL"]

/-- Substituted values that cannot collide with the placeholder alphabet
or break a JSON string literal: no uppercase letter or underscore, no
quote, no backslash, no control character. -/
def safeValChar (c : Char) : Bool :=
  !(isTokenChar c) && c != '"' && c != '\\' && !(c.toNat < 32)

/-- Characters that cannot terminate or escape a JSON string body:
the subset of constraints under which the modelled string parser scans
straight through a value. -/
def strSafeChar (c : Char) : Bool :=
  c != '"' && c != '\\' && !(c.toNat < 32)

/-- Lines 220-225: the `PRODUCT_TYPE` replacement selected from the
sensor name. -/
def productTypeOf (sensor_name : String) : String :=
  if sensor_name ∈ (["tm", "etm", "olitirs"] : List String) then "landsat"
  else if sensor_name ∈ (["terra", "aqua"] : List String) then "modis"
  else "plot"

/-- Lines 216-227: strip newlines from the serialized order and perform
the four literal placeholder substitutions, in this order. -/
def render (order_contents order_id product_id sensor_name download_url :
    String) : String :=
  let t := pyReplace order_contents "\n" ""
  let t := pyReplace t "ORDER_ID" order_id
  let t := pyReplace t "SCENE_ID" product_id
  let t := pyReplace t "PRODUCT_TYPE" (productTypeOf sensor_name)
  pyReplace t "DOWNLOAD_URL" download_url

/-- Lower-case hex digit. -/
def hexDigit (n : Nat) : Char :=
  if n < 10 then Char.ofNat (48 + n) else Char.ofNat (87 + n)

/-- JSON string escaping as performed by `json.dumps` (ASCII subset;
control characters via `\u00XX`). -/
def escapeChar (c : Char) : List Char :=
  if c = '"' then ['\\', '"']
  else if c = '\\' then ['\\', '\\']
  else if c = '\n' then ['\\', 'n']
  else if c = '\t' then ['\\', 't']
  else if c = '\r' then ['\\', 'r']
  else if c.toNat < 32 then
    ['\\', 'u', '0', '0', hexDigit (c.toNat / 16), hexDigit (c.toNat % 16)]
  else [c]

/-- Escape every character of a string. -/
def escapeL (s : List Char) : List Char :=
  s.foldr (fun c acc => escapeChar c ++ acc) []

/-- A JSON string literal. -/
def quoteStr (s : String) : List Char := '"' :: (escapeL s.data ++ ['"'])

/-- `indent=4` indentation. -/
def indentC (lvl : Nat) : List Char := List.replicate (4 * lvl) ' '

/-- Insertion step for `sort_keys=True`. -/
def insertField (kv : String × JVal) :
    List (String × JVal) → List (String × JVal)
  | [] => [kv]
  | kv' :: t => if leKey kv.1 kv'.1 then kv :: kv' :: t else kv' :: insertField kv t

/-- `sort_keys=True`: object entries serialized in ascending key order. -/
def sortFields (l : List (String × JVal)) : List (String × JVal) :=
  l.foldr insertField []

mutual

/-- `json.dumps(v, indent=4, sort_keys=True)` on character lists
(fuel-indexed for kernel evaluation; any fuel above the nesting depth
yields the same output). -/
def serFuel : Nat → Nat → JVal → List Char
  | 0, _, _ => []
  | fuel + 1, lvl, v =>
    match v with
    | JVal.null => 'n' :: 'u' :: 'l' :: 'l' :: []
    | JVal.bool true => 't' :: 'r' :: 'u' :: 'e' :: []
    | JVal.bool false => 'f' :: 'a' :: 'l' :: 's' :: 'e' :: []
    | JVal.num n => (toString n).data
    | JVal.str s => quoteStr s
    | JVal.arr [] => '[' :: ']' :: []
    | JVal.arr (e :: es) =>
      '[' :: '\n' :: (serArrItems fuel lvl (e :: es) ++ '\n' :: (indentC lvl ++ [']']))
    | JVal.obj [] => '\x7b' :: '\x7d' :: []
    | JVal.obj (f :: fs) =>
      '\x7b' :: '\n' ::
        (serObjItems fuel lvl (sortFields (f :: fs)) ++ '\n' :: (indentC lvl ++ ['\x7d']))

/-- Array items, one per line, comma-separated. -/
def serArrItems : Nat → Nat → List JVal → List Char
  | 0, _, _ => []
  | _ + 1, _, [] => []
  | fuel + 1, lvl, [v] => indentC (lvl + 1) ++ serFuel fuel (lvl + 1) v
  | fuel + 1, lvl, v :: vs =>
    indentC (lvl + 1) ++ (serFuel fuel (lvl + 1) v ++ ',' :: '\n' :: serArrItems fuel lvl vs)

/-- Object items, one per line, comma-separated, `": "` after the key. -/
def serObjItems : Nat → Nat → List (String × JVal) → List Char
  | 0, _, _ => []
  | _ + 1, _, [] => []
  | fuel + 1, lvl, [(k, v)] =>
    indentC (lvl + 1) ++ (quoteStr k ++ ':' :: ' ' :: serFuel fuel (lvl + 1) v)
  | fuel + 1, lvl, (k, v) :: fs =>
    indentC (lvl + 1) ++
      (quoteStr k ++ ':' :: ' ' :: (serFuel fuel (lvl + 1) v ++ ',' :: '\n' :: serObjItems fuel lvl fs))

end

/-- Line 153: `json.dumps(new_dict, indent=4, sort_keys=True)`. -/
def serializeOrder (v : JVal) : String := ⟨serFuel 1000 0 v⟩

/-- JSON whitespace. -/
def jsonWs (c : Char) : Bool := c == ' ' || c == '\t' || c == '\n' || c == '\r'

/-- Skip JSON whitespace. -/
def skipWs (cs : List Char) : List Char := cs.dropWhile jsonWs

/-- Body of a JSON string literal, after the opening quote: the raw
characters and the remainder after the closing quote.  Raw control
characters are rejected, as `json.loads` does; escape sequences are
outside the modelled subset (the serialized test orders contain none). -/
def strBody : List Char → Option (List Char × List Char)
  | [] => none
  | c :: cs =>
    if c = '"' then some ([], cs)
    else if c = '\\' then none
    else if c.toNat < 32 then none
    else
      match strBody cs with
      | none => none
      | some (s, rest) => some (c :: s, rest)

/-- Digit run of an integer literal. -/
def digitsToNat (acc : Nat) : List Char → Nat × List Char
  | [] => (acc, [])
  | c :: cs =>
    if c.isDigit then digitsToNat (acc * 10 + (c.toNat - 48)) cs
    else (acc, c :: cs)

mutual

/-- `json.loads`, modelled for the integer subset of JSON the test orders
use.  Fuel-indexed; every recursive call consumes at least one character,
so fuel `length + 1` suffices. -/
def parseVal : Nat → List Char → Option (JVal × List Char)
  | 0, _ => none
  | fuel + 1, cs =>
    match skipWs cs with
    | [] => none
    | c :: rest =>
      if c = '\x7b' then
        match skipWs rest with
        | '\x7d' :: rest' => some (JVal.obj [], rest')
        | rest' => parseMembers fuel rest' []
      else if c = '[' then
        match skipWs rest with
        | ']' :: rest' => some (JVal.arr [], rest')
        | rest' => parseElems fuel rest' []
      else if c = '"' then
        match strBody rest with
        | none => none
        | some (s, rest') => some (JVal.str ⟨s⟩, rest')
      else if c = 't' then
        match rest with
        | 'r' :: 'u' :: 'e' :: r => some (JVal.bool true, r)
        | _ => none
      else if c = 'f' then
        match rest with
        | 'a' :: 'l' :: 's' :: 'e' :: r => some (JVal.bool false, r)
        | _ => none
      else if c = 'n' then
        match rest with
        | 'u' :: 'l' :: 'l' :: r => some (JVal.null, r)
        | _ => none
      else if c = '-' then
        match rest with
        | d :: _ =>
          if d.isDigit then
            let (n, r) := digitsToNat 0 rest
            some (JVal.num (-(n : Int)), r)
          else none
        | [] => none
      else if c.isDigit then
        let (n, r) := digitsToNat 0 (c :: rest)
        some (JVal.num (n : Int), r)
      else none

/-- Object members after `{` (nonempty case). -/
def parseMembers : Nat → List Char → List (String × JVal) →
    Option (JVal × List Char)
  | 0, _, _ => none
  | fuel + 1, cs, acc =>
    match skipWs cs with
    | '"' :: rest =>
      match strBody rest with
      | none => none
      | some (k, rest') =>
        match skipWs rest' with
        | ':' :: rest2 =>
          match parseVal fuel rest2 with
          | none => none
          | some (v, rest3) =>
            match skipWs rest3 with
            | ',' :: rest4 => parseMembers fuel rest4 (acc ++ [(⟨k⟩, v)])
            | '\x7d' :: rest4 => some (JVal.obj (acc ++ [(⟨k⟩, v)]), rest4)
            | _ => none
        | _ => none
    | _ => none

/-- Array elements after `[` (nonempty case). -/
def parseElems : Nat → List Char → List JVal → Option (JVal × List Char)
  | 0, _, _ => none
  | fuel + 1, cs, acc =>
    match parseVal fuel cs with
    | none => none
    | some (v, rest) =>
      match skipWs rest with
      | ',' :: rest' => parseElems fuel rest' (acc ++ [v])
      | ']' :: rest' => some (JVal.arr (acc ++ [v]), rest')
      | _ => none

end

/-- Line 232: `json.loads(tmp_line)`; `none` models the raised
`ValueError` (also requiring the document to be a single value with
nothing but whitespace after it). -/
def parseJson (s : String) : Option JVal :=
  match parseVal (s.data.length + 1) s.data with
  | some (v, rest) => if (skipWs rest).isEmpty then some v else none
  | none => none

/-- What the external `sensor.instance(product_id)` object provides
(sensor code, short name, version, acquisition year / day-of-year,
sensor name). -/
structure SensorInfo where
  sensor_code : String
  short_name : String
  version : String
  year : Nat
  doy : Nat
  sensor_name : String
deriving Repr, DecidableEq

/-- The environment `process_test_order` runs against: the external
collaborators (sensor module, date utility, filesystem, mapper process)
and the two input documents.  `none` in `template` / `request` models an
empty or unparsable file (the raised exception), `none` in `sensor`
models `sensor.instance` raising for an unknown product id. -/
structure Env where
  dev_data_dir : String
  template : Option Doc
  request : Option Doc
  sensor : String → Option SensorInfo
  isfile : String → Bool
  date_from_doy : Nat → Nat → Nat × Nat × Nat
  dispatch_ok : String → Bool
  tmp_preexists : Bool

/-- Observable side effects of one batch run, in order. -/
inductive Event where
  | readRequest (product_id : String)
  | createTmp (product_id : String)
  | render (product_id download_url : String)
  | dispatch (product_id : String)
  | unlink
deriving Repr, DecidableEq

/-- How one iteration of the product loop ends: fall through to the
dispatch and continue (`cont`, carrying the dispatch outcome), `break`
out of the loop (line 180), or raise out of the function. -/
inductive StepOut where
  | cont (dispatched_ok : Bool)
  | brk
  | raise (msg : String)
deriving Repr, DecidableEq

/-- How `process_test_order` ends: a normal return value, or a
propagated exception. -/
inductive RunResult where
  | ok (status : Bool)
  | exn (msg : String)
deriving Repr, DecidableEq

/-- Lines 185-207: the MODIS download URL
`http://{MODIS_HOST}/{product_path}/{product_id}.hdf` with
`product_path = {base}/{short_name}.{version}/{yyyy.mm.dd}`. -/
def modisURL (env : Env) (product_id : String) (info : SensorInfo)
    (sensor_code : String) : String :=
  let base_source_path := if sensor_code = "MOD" then "/MOLT" else "/MOLA"
  let ad := env.date_from_doy info.year info.doy
  let xxx := zfill 4 (toString ad.1) ++ "." ++ zfill 2 (toString ad.2.1) ++ "." ++
    zfill 2 (toString ad.2.2)
  let product_path := base_source_path ++ "/" ++ info.short_name ++ "." ++
    info.version ++ "/" ++ xxx
  "http://" ++ MODIS_HOST ++ "/" ++ product_path ++ "/" ++ product_id ++ ".hdf"

/-- Lines 209-232: choose the sensor name, render the order into the tmp
file and re-validate it with `json.loads`; then lines 242-257: pipe the
tmp file into the mapper, catching any execution error.  Shared tail of
the loop body once a download URL has been resolved. -/
def finishProduct (env : Env) (plot : Bool) (order_id product_id : String)
    (info : SensorInfo) (merged : Doc) (download_url : String)
    (evs : List Event) : List Event × StepOut :=
  let sensor_name := if plot then "plot" else info.sensor_name
  let tmp_line := render (serializeOrder (JVal.obj merged)) order_id product_id
    sensor_name download_url
  let evs := evs ++ [Event.render product_id download_url]
  match parseJson tmp_line with
  | none => (evs, StepOut.raise "json")
  | some _ => (evs ++ [Event.dispatch product_id], StepOut.cont (env.dispatch_ok product_id))

/-- Lines 128-257: one iteration of `for product_id in products`. -/
def processProduct (env : Env) (template_dict : Doc) (plot : Bool)
    (order_id product_id : String) : List Event × StepOut :=
  match env.sensor product_id with
  | none => ([], StepOut.raise "sensor")
  | some info =>
    let sensor_code := upperStr info.sensor_code
    match env.request with
    | none => ([Event.readRequest product_id], StepOut.raise "order file empty")
    | some request_dict =>
      match mergeDicts template_dict request_dict with
      | none => ([Event.readRequest product_id], StepOut.raise "merge")
      | some merged =>
        let evs := [Event.readRequest product_id, Event.createTmp product_id]
        let is_modis := sensor_code == "MOD" || sensor_code == "MYD"
        if !is_modis && !plot then
          let product_path := env.dev_data_dir ++ "/" ++ sensor_code ++ "/" ++
            product_id ++ ".tar.gz"
          if !env.isfile product_path then (evs, StepOut.brk)
          else
            finishProduct env plot order_id product_id info merged
              ("file://" ++ product_path) evs
        else if !plot then
          let download_url :=
            if sensor_code = "MOD" ∨ sensor_code = "MYD" then
              modisURL env product_id info sensor_code
            else "null"
          finishProduct env plot order_id product_id info merged download_url evs
        else
          finishProduct env plot order_id product_id info merged "null" evs

/-- Lines 127-261: the product loop followed by `os.unlink(tmp_order)`
and `return status`.  A `break` jumps straight to the unlink (skipping
the dead `have_error` check of lines 238-240); a raise propagates without
unlinking; `os.unlink` itself raises when the tmp file was never created
in this run and none is left over from a previous one. -/
def processLoop (env : Env) (template_dict : Doc) (plot : Bool)
    (order_id : String) :
    List String → Bool → Bool → RunResult × List Event
  | [], status, tmpCreated =>
    if tmpCreated || env.tmp_preexists then (RunResult.ok status, [Event.unlink])
    else (RunResult.exn "unlink", [])
  | product_id :: rest, status, _ =>
    match processProduct env template_dict plot order_id product_id with
    | (evs, StepOut.raise m) => (RunResult.exn m, evs)
    | (evs, StepOut.brk) => (RunResult.ok status, evs ++ [Event.unlink])
    | (evs, StepOut.cont ok) =>
      let tail := processLoop env template_dict plot order_id rest (status && ok) true
      (tail.1, evs ++ tail.2)

/-- Lines 92-98: the order id is the request file name without `.json`
and quotes, with optional `-PRE` / `-POST` suffixes. -/
def orderIdOf (request_file : String) (pre post : Bool) : String :=
  let order_id0 := pyReplace ⟨beforeSubL ".json".data request_file.data⟩
    (String.mk [Char.ofNat 39]) ""
  let order_id1 := if pre then order_id0 ++ "-PRE" else order_id0
  if post then order_id1 ++ "-POST" else order_id1

/-- Lines 104-113: the product list, read from the products file (each
line stripped, stopping at the first blank line), or the synthetic
`['plot']` list for plot runs. -/
def productsOf (products_lines : List String) (plot : Bool) : List String :=
  if !plot then (products_lines.map stripStr).takeWhile (fun l => l ≠ "")
  else ["plot"]

/-- Lines 81-261: `process_test_order`.  `products_lines` are the lines
of the products file. -/
def process_test_order (env : Env) (request_file : String)
    (products_lines : List String) (plot pre post : Bool) :
    RunResult × List Event :=
  match env.template with
  | none => (RunResult.exn "template", [])
  | some template_dict =>
    processLoop env template_dict plot (orderIdOf request_file pre post)
      (productsOf products_lines plot) true false

/-- A Python value as stored in a dict slot: either a reference to
another heap-allocated dict or an immutable scalar. -/
inductive HVal where
  | ref (addr : Nat)
  | prim (v : JVal)

/-- A heap-allocated Python dict. -/
abbrev HDict := List (String × HVal)

/-- The Python object heap: dict contents per address plus the next
fresh address. -/
structure Heap where
  mem : Nat → Option HDict
  next : Nat

/-- Allocate a fresh dict (Python `.copy()` allocates). -/
def halloc (h : Heap) (d : HDict) : Heap × Nat :=
  ({ mem := fun a => if a = h.next then some d else h.mem a, next := h.next + 1 },
    h.next)

/-- Overwrite the dict stored at `a` (in-place mutation). -/
def hset (h : Heap) (a : Nat) (d : HDict) : Heap :=
  { h with mem := fun x => if x = a then some d else h.mem x }

/-- Project the address out of a reference slot. -/
def refAddr : HVal → Option Nat
  | HVal.ref a => some a
  | HVal.prim _ => none

/-- Lines 147-150 of the script run against the object heap, with the
template dict at `a_t` and the request dict at `a_r`:
`copy` allocates, `update` and subscript-assignment mutate in place.
Returns the heap after the merge and the address of `new_dict`. -/
def mergeProg (h : Heap) (a_t a_r : Nat) : Option (Heap × Nat) :=
  match h.mem a_t with
  | none => none
  | some td =>
    let alloc1 := halloc h td
    let h1 := alloc1.1
    let a_n := alloc1.2
    match h1.mem a_r, h1.mem a_n with
    | some rd, some nd =>
      let h2 := hset h1 a_n (pyUpdateA nd rd)
      match h2.mem a_t with
      | none => none
      | some td2 =>
        match lookupA td2 "options" with
        | none => none
        | some tOptsSlot =>
          match refAddr tOptsSlot with
          | none => none
          | some a_to =>
            match h2.mem a_to with
            | none => none
            | some tOpts =>
              let alloc2 := halloc h2 tOpts
              let h3 := alloc2.1
              let a_o := alloc2.2
              match h3.mem a_n with
              | none => none
              | some nd2 =>
                let h4 := hset h3 a_n (pySetA nd2 "options" (HVal.ref a_o))
                match h4.mem a_r with
                | none => none
                | some rd2 =>
                  match lookupA rd2 "options" with
                  | none => none
                  | some rOptsSlot =>
                    match refAddr rOptsSlot with
                    | none => none
                    | some a_ro =>
                      match h4.mem a_ro, h4.mem a_n with
                      | some rOpts, some nd3 =>
                        match lookupA nd3 "options" with
                        | none => none
                        | some ndOptsSlot =>
                          match refAddr ndOptsSlot with
                          | none => none
                          | some a_no =>
                            match h4.mem a_no with
                            | none => none
                            | some ndOpts =>
                              some (hset h4 a_no (pyUpdateA ndOpts rOpts), a_n)
                      | _, _ => none
    | _, _ => none

/-- Modelled from the spec: `template.json` is a data file of this
repository that is not under `src/`.  Section 3 of the spec describes it
as a structured mapping with a required `options` sub-mapping and with
the placeholder tokens `ORDER_ID`, `SCENE_ID`, `PRODUCT_TYPE` and
`DOWNLOAD_URL` appearing as string values to be substituted by the
renderer. -/
def templateModel : JVal :=
  JVal.obj [("orderid", JVal.str "ORDER_ID"), ("scene", JVal.str "SCENE_ID"),
    ("product_type", JVal.str "PRODUCT_TYPE"),
    ("download_url", JVal.str "DOWNLOAD_URL"), ("options", JVal.obj [])]

/-- A Landsat-5 sensor descriptor (non-MODIS). -/
def sensorLT5 : SensorInfo :=
  { sensor_code := "lt5", short_name := "sn", version := "v", year := 2002,
    doy := 123, sensor_name := "tm" }

/-- A Terra MODIS sensor descriptor. -/
def sensorMOD : SensorInfo :=
  { sensor_code := "mod", short_name := "MOD09GQ", version := "006",
    year := 2020, doy := 100, sensor_name := "terra" }

/-- An Aqua MODIS sensor descriptor. -/
def sensorMYD : SensorInfo :=
  { sensor_code := "myd", short_name := "MYD09GQ", version := "006",
    year := 2020, doy := 100, sensor_name := "aqua" }

/-- Minimal template document: just an empty `options`. -/
def tinyDoc : Doc := [("options", JVal.obj [])]

/-- Environment for a batch of Landsat products whose staged source file
for `p2` is missing while every other file exists. -/
def envMissingP2 : Env :=
  { dev_data_dir := "/dev-data"
    template := some tinyDoc
    request := some tinyDoc
    sensor := fun _ => some sensorLT5
    isfile := fun s => s != "/dev-data/LT5/p2.tar.gz"
    date_from_doy := fun y _ => (y, 1, 1)
    dispatch_ok := fun _ => true
    tmp_preexists := false }

/-- Environment where every staged file exists and every dispatch
succeeds. -/
def envClean : Env :=
  { envMissingP2 with isfile := fun _ => true }

/-- Environment where every staged file exists but dispatching `p2`
fails. -/
def envDispFail : Env :=
  { envClean with dispatch_ok := fun p => p != "p2" }

/-- Environment whose template carries a `SCENE_ID` placeholder, so that
a product id containing a quote corrupts the rendered JSON and the
re-validation of line 232 raises. -/
def envBadPid : Env :=
  { envClean with
    template := some [("options", JVal.obj []), ("scene", JVal.str "SCENE_ID")] }

/-- Environment for MODIS products. -/
def envModis : Env :=
  { envClean with
    sensor := fun _ => some sensorMOD
    date_from_doy := fun _ _ => (2020, 4, 9) }

/-- Environment for Aqua MODIS products. -/
def envMYD : Env :=
  { envModis with sensor := fun _ => some sensorMYD }

/-- Heap contents of a concrete template dict (its `options` slot points
at address 2). -/
def tdHeap : HDict := [("options", HVal.ref 2), ("k", HVal.prim (JVal.num 1))]

/-- Heap contents of a concrete request dict (its `options` slot points
at address 3). -/
def rdHeap : HDict := [("options", HVal.ref 3)]

/-- Heap contents of the template's options dict. -/
def toHeap : HDict := [("a", HVal.prim (JVal.num 1))]

/-- Heap contents of the request's options dict. -/
def roHeap : HDict := [("b", HVal.prim (JVal.num 2))]

/-- A concrete initial heap: template at 0, request at 1, their options
dicts at 2 and 3. -/
def heap0 : Heap :=
  { mem := fun a =>
      if a = 0 then some tdHeap
      else if a = 1 then some rdHeap
      else if a = 2 then some toHeap
      else if a = 3 then some roHeap
      else none
    next := 4 }

theorem lookupA_append {α : Type} (a b : List (String × α)) (k : String) :
    lookupA (a ++ b) k = (lookupA a k).orElse (fun _ => lookupA b k) := by
  induction a with
  | nil => simp [lookupA, Option.orElse]
  | cons kv t ih =>
    obtain ⟨k', v'⟩ := kv
    by_cases hk : k' = k
    · simp [lookupA, hk, Option.orElse]
    · simp [lookupA, hk, ih]

theorem lookupA_updLeft {α : Type} (d1 d2 : List (String × α)) (k : String) :
    lookupA (d1.map fun kv =>
      match lookupA d2 kv.1 with
      | some v => (kv.1, v)
      | none => kv) k =
      match lookupA d1 k, lookupA d2 k with
      | some _, some w => some w
      | some v, none => some v
      | none, _ => none := by
  induction d1 with
  | nil => simp [lookupA]
  | cons kv t ih =>
    obtain ⟨k', v'⟩ := kv
    by_cases hk : k' = k
    · subst hk
      cases h2 : lookupA d2 k' <;> simp [lookupA, h2]
    · cases h2 : lookupA d2 k' <;> simp [lookupA, hk, h2, ih]

theorem lookupA_filterNew {α : Type} (d1 d2 : List (String × α)) (k : String) :
    lookupA (d2.filter fun kv => (lookupA d1 kv.1).isNone) k =
      match lookupA d1 k with
      | some _ => none
      | none => lookupA d2 k := by
  induction d2 with
  | nil => cases lookupA d1 k <;> simp [lookupA]
  | cons kv t ih =>
    obtain ⟨k2, v2⟩ := kv
    by_cases hk : k2 = k
    · subst hk
      cases h1 : lookupA d1 k2 <;> simp [List.filter, lookupA, h1, ih]
    · cases h1 : lookupA d1 k2 <;> cases h1' : lookupA d1 k <;>
        simp [List.filter, lookupA, h1, h1', hk, ih]

theorem lookupA_pyUpdateA {α : Type} (d1 d2 : List (String × α)) (k : String) :
    lookupA (pyUpdateA d1 d2) k = (lookupA d2 k).orElse (fun _ => lookupA d1 k) := by
  unfold pyUpdateA
  rw [lookupA_append, lookupA_updLeft, lookupA_filterNew]
  cases h1 : lookupA d1 k <;> cases h2 : lookupA d2 k <;> simp [Option.orElse]

theorem lookupA_pySetA {α : Type} (d : List (String × α)) (k k' : String) (v : α) :
    lookupA (pySetA d k v) k' = if k = k' then some v else lookupA d k' := by
  unfold pySetA
  rw [lookupA_pyUpdateA]
  by_cases hk : k = k' <;> simp [lookupA, hk, Option.orElse]

/-- C3: for template `T` and request `R` (non-empty, both with an
`options` key holding a mapping), every top-level key of `R` other than
`options` keeps `R`'s value in the merge, every key absent from `R`
keeps `T`'s value, and `options` is `T.options` shallowly overridden by
`R.options` (again request values win, one level deep). -/
theorem claim_C3 (t r : Doc) (tOpts rOpts : List (String × JVal))
    (_hne_t : t ≠ []) (_hne_r : r ≠ [])
    (ht : lookupA t "options" = some (JVal.obj tOpts))
    (hr : lookupA r "options" = some (JVal.obj rOpts)) :
    ∃ m, mergeDicts t r = some m ∧
      (∀ k, k ≠ "options" →
        lookupA m k = (lookupA r k).orElse (fun _ => lookupA t k)) ∧
      lookupA m "options" = some (JVal.obj (pyUpdateA tOpts rOpts)) ∧
      (∀ k, lookupA (pyUpdateA tOpts rOpts) k =
        (lookupA rOpts k).orElse (fun _ => lookupA tOpts k)) := by
  refine ⟨pySetA (pyUpdateA t r) "options" (JVal.obj (pyUpdateA tOpts rOpts)),
    ?_, ?_, ?_, ?_⟩
  · unfold mergeDicts
    rw [ht, hr]
  · intro k hk
    rw [lookupA_pySetA, if_neg (Ne.symm hk)]
    exact lookupA_pyUpdateA t r k
  · rw [lookupA_pySetA]
    simp
  · intro k
    exact lookupA_pyUpdateA tOpts rOpts k

/-- Witness for C3 at the spec's end-to-end example:
template `{"options": {"a": 1}}` merged with request
`{"options": {"b": 2}, "note": "x"}`. -/
theorem claim_C3_witness :
    lookupA [("options", JVal.obj [("a", JVal.num 1)])] "options" =
        some (JVal.obj [("a", JVal.num 1)]) ∧
      ∃ m, mergeDicts [("options", JVal.obj [("a", JVal.num 1)])]
          [("options", JVal.obj [("b", JVal.num 2)]), ("note", JVal.str "x")] =
            some m ∧
        (∀ k, k ≠ "options" →
          lookupA m k =
            (lookupA [("options", JVal.obj [("b", JVal.num 2)]),
              ("note", JVal.str "x")] k).orElse
              (fun _ => lookupA [("options", JVal.obj [("a", JVal.num 1)])] k)) ∧
        lookupA m "options" =
          some (JVal.obj (pyUpdateA [("a", JVal.num 1)] [("b", JVal.num 2)])) ∧
        (∀ k, lookupA (pyUpdateA [("a", JVal.num 1)] [("b", JVal.num 2)]) k =
          (lookupA [("b", JVal.num 2)] k).orElse
            (fun _ => lookupA [("a", JVal.num 1)] k)) :=
  ⟨rfl, claim_C3 _ _ _ _ (by simp) (by simp) rfl rfl⟩

/-- C5: sensor-code resolution tries the 3-character prefix against the
legacy table first, then the 4-character prefix against the collection
table, fails naming the attempted (4-character) prefix, and never
returns a code outside the two tables. -/
theorem claim_C5 (pid : String) :
    (get_satellite_sensor_code pid =
      if takeChars pid 3 ∈ old_prefixes then Except.ok (takeChars pid 3)
      else if takeChars pid 4 ∈ collection_prefixes then Except.ok (takeChars pid 4)
      else Except.error
        ("Satellite-Sensor code (" ++ takeChars pid 4 ++ ") not understood")) ∧
    ∀ c, get_satellite_sensor_code pid = Except.ok c →
      c ∈ old_prefixes ∨ c ∈ collection_prefixes := by
  refine ⟨rfl, ?_⟩
  intro c h
  unfold get_satellite_sensor_code at h
  by_cases h3 : takeChars pid 3 ∈ old_prefixes
  · rw [if_pos h3] at h
    cases h
    exact Or.inl h3
  · rw [if_neg h3] at h
    by_cases h4 : takeChars pid 4 ∈ collection_prefixes
    · rw [if_pos h4] at h
      cases h
      exact Or.inr h4
    · rw [if_neg h4] at h
      cases h

/-- Witness for C5 at `"MOD09A1"` (MODIS legacy prefix). -/
theorem claim_C5_witness :
    get_satellite_sensor_code "MOD09A1" = Except.ok "MOD" ∧
      ("MOD" ∈ old_prefixes ∨ "MOD" ∈ collection_prefixes) :=
  ⟨rfl, (claim_C5 "MOD09A1").2 "MOD" rfl⟩

/-- C10: `get_satellite_sensor_code` is total: the embedding returns for
every string (Python slicing cannot fail), and every input matching
neither prefix table — including strings shorter than 3 or 4 characters
and the empty string — yields exactly the unrecognized-sensor-code
error naming the attempted prefix, not any other failure. -/
theorem claim_C10 (pid : String)
    (h3 : takeChars pid 3 ∉ old_prefixes)
    (h4 : takeChars pid 4 ∉ collection_prefixes) :
    get_satellite_sensor_code pid =
      Except.error
        ("Satellite-Sensor code (" ++ takeChars pid 4 ++ ") not understood") := by
  unfold get_satellite_sensor_code
  rw [if_neg h3, if_neg h4]

/-- Witness for C10 at the empty string: both prefixes are empty and
match nothing, and the error names the (empty) attempted prefix. -/
theorem claim_C10_witness :
    takeChars "" 3 ∉ old_prefixes ∧
      takeChars "" 4 ∉ collection_prefixes ∧
      get_satellite_sensor_code "" =
        Except.error "Satellite-Sensor code () not understood" :=
  ⟨by decide, by decide, claim_C10 "" (by decide) (by decide)⟩

theorem finishProduct_eq (env : Env) (plot : Bool) (oid pid : String)
    (info : SensorInfo) (merged : Doc) (du : String) (evs : List Event) :
    finishProduct env plot oid pid info merged du evs =
      match parseJson (render (serializeOrder (JVal.obj merged)) oid pid
        (if plot then "plot" else info.sensor_name) du) with
      | none => (evs ++ [Event.render pid du], StepOut.raise "json")
      | some _ => (evs ++ [Event.render pid du] ++ [Event.dispatch pid],
          StepOut.cont (env.dispatch_ok pid)) := rfl

theorem finishProduct_no_unlink (env : Env) (plot : Bool) (oid pid : String)
    (info : SensorInfo) (merged : Doc) (du : String) (evs : List Event)
    (h : Event.unlink ∉ evs) :
    Event.unlink ∉ (finishProduct env plot oid pid info merged du evs).1 := by
  rw [finishProduct_eq]
  split <;> simp [h]

theorem processProduct_no_unlink (env : Env) (td : Doc) (plot : Bool)
    (oid pid : String) :
    Event.unlink ∉ (processProduct env td plot oid pid).1 := by
  unfold processProduct
  cases hs : env.sensor pid with
  | none => simp [hs]
  | some info =>
    cases hr : env.request with
    | none => simp [hs, hr]
    | some rd =>
      cases hm : mergeDicts td rd with
      | none => simp [hs, hr, hm]
      | some merged =>
        simp only [hs, hr, hm]
        split
        · split
          · simp
          · exact finishProduct_no_unlink _ _ _ _ _ _ _ _ (by simp)
        · split
          · exact finishProduct_no_unlink _ _ _ _ _ _ _ _ (by simp)
          · exact finishProduct_no_unlink _ _ _ _ _ _ _ _ (by simp)

theorem finishProduct_cont (env : Env) (plot : Bool) (oid pid : String)
    (info : SensorInfo) (merged : Doc) (du : String) (evs : List Event) (b : Bool)
    (h : (finishProduct env plot oid pid info merged du evs).2 = StepOut.cont b) :
    b = env.dispatch_ok pid ∧
      (finishProduct env plot oid pid info merged du evs).1 =
        evs ++ [Event.render pid du] ++ [Event.dispatch pid] := by
  rw [finishProduct_eq] at h ⊢
  split at h
  · cases h
  · cases h
    exact ⟨rfl, rfl⟩

theorem processProduct_eq_noSensor (env : Env) (td : Doc) (plot : Bool)
    (oid pid : String) (hs : env.sensor pid = none) :
    processProduct env td plot oid pid = ([], StepOut.raise "sensor") := by
  unfold processProduct
  rw [hs]

theorem processProduct_eq_noRequest (env : Env) (td : Doc) (plot : Bool)
    (oid pid : String) (info : SensorInfo) (hs : env.sensor pid = some info)
    (hr : env.request = none) :
    processProduct env td plot oid pid =
      ([Event.readRequest pid], StepOut.raise "order file empty") := by
  unfold processProduct
  rw [hs, hr]

theorem processProduct_eq_noMerge (env : Env) (td : Doc) (plot : Bool)
    (oid pid : String) (info : SensorInfo) (rd : Doc)
    (hs : env.sensor pid = some info) (hr : env.request = some rd)
    (hm : mergeDicts td rd = none) :
    processProduct env td plot oid pid =
      ([Event.readRequest pid], StepOut.raise "merge") := by
  unfold processProduct
  simp only [hs, hr, hm]

theorem processProduct_eq_some (env : Env) (td : Doc) (plot : Bool)
    (oid pid : String) (info : SensorInfo) (rd merged : Doc)
    (hs : env.sensor pid = some info) (hr : env.request = some rd)
    (hm : mergeDicts td rd = some merged) :
    processProduct env td plot oid pid =
      (let sensor_code := upperStr info.sensor_code
       let evs := [Event.readRequest pid, Event.createTmp pid]
       let is_modis := sensor_code == "MOD" || sensor_code == "MYD"
       if !is_modis && !plot then
         let product_path := env.dev_data_dir ++ "/" ++ sensor_code ++ "/" ++
           pid ++ ".tar.gz"
         if !env.isfile product_path then (evs, StepOut.brk)
         else finishProduct env plot oid pid info merged
           ("file://" ++ product_path) evs
       else if !plot then
         finishProduct env plot oid pid info merged
           (if sensor_code = "MOD" ∨ sensor_code = "MYD" then
             modisURL env pid info sensor_code
           else "null") evs
       else finishProduct env plot oid pid info merged "null" evs) := by
  unfold processProduct
  simp only [hs, hr, hm]

theorem processProduct_cont (env : Env) (td : Doc) (plot : Bool)
    (oid pid : String) (b : Bool)
    (h : (processProduct env td plot oid pid).2 = StepOut.cont b) :
    b = env.dispatch_ok pid ∧
      Event.dispatch pid ∈ (processProduct env td plot oid pid).1 ∧
      (processProduct env td plot oid pid).1.countP
        (fun e => match e with | Event.readRequest _ => true | _ => false) = 1 := by
  cases hs : env.sensor pid with
  | none => rw [processProduct_eq_noSensor env td plot oid pid hs] at h; cases h
  | some info =>
    cases hr : env.request with
    | none =>
      rw [processProduct_eq_noRequest env td plot oid pid info hs hr] at h
      cases h
    | some rd =>
      cases hm : mergeDicts td rd with
      | none =>
        rw [processProduct_eq_noMerge env td plot oid pid info rd hs hr hm] at h
        cases h
      | some merged =>
        rw [processProduct_eq_some env td plot oid pid info rd merged hs hr hm] at h ⊢
        dsimp only at h ⊢
        split at h
        · split at h
          · cases h
          · rename_i h1 h2
            obtain ⟨hb, hevs⟩ := finishProduct_cont _ _ _ _ _ _ _ _ _ h
            rw [if_pos h1, if_neg h2, hevs]
            refine ⟨hb, by simp, by
              simp [List.countP_append, List.countP_cons]⟩
        · split at h
          · rename_i h1 h2
            obtain ⟨hb, hevs⟩ := finishProduct_cont _ _ _ _ _ _ _ _ _ h
            rw [if_neg h1, if_pos h2, hevs]
            refine ⟨hb, by simp, by
              simp [List.countP_append, List.countP_cons]⟩
          · rename_i h1 h2
            obtain ⟨hb, hevs⟩ := finishProduct_cont _ _ _ _ _ _ _ _ _ h
            rw [if_neg h1, if_neg h2, hevs]
            refine ⟨hb, by simp, by
              simp [List.countP_append, List.countP_cons]⟩

theorem processLoop_unlink (env : Env) (td : Doc) (plot : Bool) (oid : String) :
    ∀ (ps : List String) (st tc : Bool),
      (∀ b, (processLoop env td plot oid ps st tc).1 = RunResult.ok b →
        Event.unlink ∈ (processLoop env td plot oid ps st tc).2) ∧
      (∀ m, (processLoop env td plot oid ps st tc).1 = RunResult.exn m →
        Event.unlink ∉ (processLoop env td plot oid ps st tc).2) := by
  intro ps
  induction ps with
  | nil =>
    intro st tc
    by_cases hc : (tc || env.tmp_preexists) = true <;>
      simp [processLoop, hc]
  | cons p rest ih =>
    intro st tc
    have hnu := processProduct_no_unlink env td plot oid p
    rcases hpp : processProduct env td plot oid p with ⟨evs, out⟩
    rw [hpp] at hnu
    cases out with
    | raise m =>
      simp only [processLoop, hpp]
      refine ⟨fun b hb => ?_, fun m' hm' => ?_⟩
      · cases hb
      · exact hnu
    | brk =>
      simp only [processLoop, hpp]
      refine ⟨fun b hb => ?_, fun m' hm' => ?_⟩
      · simp
      · cases hm'
    | cont ok =>
      simp only [processLoop, hpp]
      refine ⟨fun b hb => ?_, fun m' hm' => ?_⟩
      · have := (ih (st && ok) true).1 b hb
        simp [this]
      · have := (ih (st && ok) true).2 m' hm'
        simp [hnu, this]

theorem processLoop_clean (env : Env) (td : Doc) (plot : Bool) (oid : String) :
    ∀ (ps : List String) (st : Bool),
      (∀ p ∈ ps, ∃ b, (processProduct env td plot oid p).2 = StepOut.cont b) →
      (processLoop env td plot oid ps st true).1 =
          RunResult.ok (st && ps.all env.dispatch_ok) ∧
        (∀ p ∈ ps, Event.dispatch p ∈ (processLoop env td plot oid ps st true).2) ∧
        (processLoop env td plot oid ps st true).2.countP
          (fun e => match e with | Event.readRequest _ => true | _ => false) =
          ps.length := by
  intro ps
  induction ps with
  | nil =>
    intro st _
    simp [processLoop]
  | cons p rest ih =>
    intro st hclean
    obtain ⟨b, hb⟩ := hclean p (by simp)
    obtain ⟨hbval, hdisp, hcount⟩ := processProduct_cont env td plot oid p b hb
    rcases hpp : processProduct env td plot oid p with ⟨evs, out⟩
    rw [hpp] at hb hdisp hcount
    dsimp only at hb hdisp hcount
    subst hb
    have ihr := ih (st && b) (fun q hq => hclean q (by simp [hq]))
    obtain ⟨ih1, ih2, ih3⟩ := ihr
    simp only [processLoop, hpp]
    refine ⟨?_, ?_, ?_⟩
    · rw [ih1, hbval]
      simp [List.all_cons, Bool.and_assoc]
    · intro q hq
      rcases List.mem_cons.1 hq with hq | hq
      · subst hq
        simp [hdisp]
      · simp [ih2 q hq]
    · rw [List.countP_append, hcount, ih3]
      simp [Nat.add_comm]

/-- C1 (amended): the transient order artifact is removed exactly when
`process_test_order` terminates by returning a status — the success
path, every dispatch-failure path, and the missing-source-data `break`
included — but it is *not* removed when a fatal error propagates out of
the function (unknown sensor, empty template/request document, merge
failure, or re-validation failure of the rendered order). -/
theorem claim_C1_amended (env : Env) (rf : String) (lines : List String)
    (plot pre post : Bool) :
    (∀ b, (process_test_order env rf lines plot pre post).1 = RunResult.ok b →
      Event.unlink ∈ (process_test_order env rf lines plot pre post).2) ∧
    (∀ m, (process_test_order env rf lines plot pre post).1 = RunResult.exn m →
      Event.unlink ∉ (process_test_order env rf lines plot pre post).2) := by
  unfold process_test_order
  cases ht : env.template with
  | none =>
    refine ⟨fun b hb => ?_, fun m hm => ?_⟩
    · cases hb
    · simp
  | some td =>
    exact processLoop_unlink env td plot (orderIdOf rf pre post)
      (productsOf lines plot) true false

/-- C1 (counterexample): a batch whose single product id contains a
quote renders a corrupt order; re-validation raises after the tmp file
has been created and written, the exception propagates, and no unlink
happens — the run ends in failure with the artifact left behind. -/
theorem claim_C1_counterexample :
    process_test_order envBadPid "test-order.json" ["a\"b"] false false false =
      (RunResult.exn "json",
        [Event.readRequest "a\"b", Event.createTmp "a\"b",
          Event.render "a\"b" "file:///dev-data/LT5/a\"b.tar.gz"]) ∧
      ((process_test_order envBadPid "test-order.json" ["a\"b"]
        false false false).2.contains Event.unlink) = false :=
  ⟨rfl, rfl⟩

/-- Witness for C1 at a concrete successful plot run. -/
theorem claim_C1_witness :
    Event.unlink ∈ (process_test_order envClean "t.json" [] true false false).2 :=
  (claim_C1_amended envClean "t.json" [] true false false).1 true rfl

theorem processLoop_count (env : Env) (td : Doc) (plot : Bool) (oid : String)
    (ps : List String) (st tc : Bool)
    (hclean : ∀ p ∈ ps, ∃ b, (processProduct env td plot oid p).2 = StepOut.cont b) :
    (processLoop env td plot oid ps st tc).2.countP
      (fun e => match e with | Event.readRequest _ => true | _ => false) =
      ps.length := by
  cases ps with
  | nil =>
    by_cases hc : (tc || env.tmp_preexists) = true <;> simp [processLoop, hc]
  | cons p rest =>
    obtain ⟨b, hb⟩ := hclean p (by simp)
    obtain ⟨_, _, hcount⟩ := processProduct_cont env td plot oid p b hb
    rcases hpp : processProduct env td plot oid p with ⟨evs, out⟩
    rw [hpp] at hb hcount
    dsimp only at hb hcount
    subst hb
    have hrest := (processLoop_clean env td plot oid rest (st && b)
      (fun q hq => hclean q (by simp [hq]))).2.2
    simp only [processLoop, hpp]
    rw [List.countP_append, hcount, hrest]
    simp [Nat.add_comm]

/-- C4 (amended): the request document is read and parsed once per
product, not once per run: a batch that processes each of its `n`
products to the dispatch step performs exactly `n` request-file reads —
the file is re-read for every later product. -/
theorem claim_C4_amended (env : Env) (rf : String) (lines : List String)
    (plot pre post : Bool) (td : Doc) (ht : env.template = some td)
    (hclean : ∀ p ∈ productsOf lines plot,
      ∃ b, (processProduct env td plot (orderIdOf rf pre post) p).2 =
        StepOut.cont b) :
    (process_test_order env rf lines plot pre post).2.countP
      (fun e => match e with | Event.readRequest _ => true | _ => false) =
      (productsOf lines plot).length := by
  unfold process_test_order
  rw [ht]
  exact processLoop_count env td plot (orderIdOf rf pre post)
    (productsOf lines plot) true false hclean

/-- C4 (counterexample): a clean two-product batch reads the request
document twice, not once. -/
theorem claim_C4_counterexample :
    (process_test_order envClean "test-order.json" ["p1", "p2"]
      false false false).2.countP
      (fun e => match e with | Event.readRequest _ => true | _ => false) = 2 :=
  rfl

/-- Witness for C4 (amended) at a clean three-product batch. -/
theorem claim_C4_witness :
    (process_test_order envClean "test-order.json" ["p1", "p2", "p3"]
      false false false).2.countP
      (fun e => match e with | Event.readRequest _ => true | _ => false) = 3 := by
  have h := claim_C4_amended envClean "test-order.json" ["p1", "p2", "p3"]
    false false false tinyDoc rfl (by
      intro p hp
      fin_cases hp
      · exact ⟨true, rfl⟩
      · exact ⟨true, rfl⟩
      · exact ⟨true, rfl⟩)
  exact h

/-- C7: in a batch where every product reaches the dispatch step (no
terminal source-data error and no fatal exception), a dispatch failure
does not stop the loop: every product of the batch is dispatched, and
the run returns success exactly when every dispatch succeeded — one
failed dispatch marks the whole batch failed even if all later products
succeed. -/
theorem claim_C7 (env : Env) (rf : String) (lines : List String)
    (plot pre post : Bool) (td : Doc) (ht : env.template = some td)
    (hne : productsOf lines plot ≠ [])
    (hclean : ∀ p ∈ productsOf lines plot,
      ∃ b, (processProduct env td plot (orderIdOf rf pre post) p).2 =
        StepOut.cont b) :
    (process_test_order env rf lines plot pre post).1 =
        RunResult.ok ((productsOf lines plot).all env.dispatch_ok) ∧
      ∀ p ∈ productsOf lines plot,
        Event.dispatch p ∈ (process_test_order env rf lines plot pre post).2 := by
  unfold process_test_order
  rw [ht]
  cases hps : productsOf lines plot with
  | nil => exact absurd hps hne
  | cons p rest =>
    rw [hps] at hclean
    obtain ⟨b, hb⟩ := hclean p (by simp)
    obtain ⟨hbval, hdisp, _⟩ := processProduct_cont env td plot
      (orderIdOf rf pre post) p b hb
    rcases hpp : processProduct env td plot (orderIdOf rf pre post) p with ⟨evs, out⟩
    rw [hpp] at hb hdisp
    dsimp only at hb hdisp
    subst hb
    have hrest := processLoop_clean env td plot (orderIdOf rf pre post) rest
      (true && b) (fun q hq => hclean q (by simp [hq]))
    obtain ⟨ih1, ih2, _⟩ := hrest
    simp only [processLoop, hpp]
    refine ⟨?_, ?_⟩
    · rw [ih1, hbval]
      simp [List.all_cons, Bool.and_assoc]
    · intro q hq
      rcases List.mem_cons.1 hq with hq | hq
      · subst hq
        simp [hdisp]
      · exact List.mem_append_right _ (ih2 q hq)

/-- Witness for C7: a three-product batch whose middle dispatch fails is
marked failed overall, yet all three products are dispatched. -/
theorem claim_C7_witness :
    (process_test_order envDispFail "test-order.json" ["p1", "p2", "p3"]
        false false false).1 = RunResult.ok false ∧
      Event.dispatch "p2" ∈ (process_test_order envDispFail "test-order.json"
        ["p1", "p2", "p3"] false false false).2 ∧
      Event.dispatch "p3" ∈ (process_test_order envDispFail "test-order.json"
        ["p1", "p2", "p3"] false false false).2 := by
  have h := claim_C7 envDispFail "test-order.json" ["p1", "p2", "p3"]
    false false false tinyDoc rfl (by decide) (by
      intro p hp
      fin_cases hp
      · exact ⟨true, rfl⟩
      · exact ⟨false, rfl⟩
      · exact ⟨true, rfl⟩)
  refine ⟨?_, ?_, ?_⟩
  · rw [h.1]
    rfl
  · exact h.2 "p2" (by decide)
  · exact h.2 "p3" (by decide)

/-- C2 (code bug): in a three-product batch whose second product's
staged source file is missing, product 1 is dispatched, product 2 is not,
and product 3 is never attempted — but, contrary to the claim and to the
intent of the dead `have_error` check of lines 238-240, the function
returns success (`True`): the `break` of line 180 jumps straight past
the `return False` to the unlink, and the error is never logged. -/
theorem claim_C2_eval :
    process_test_order envMissingP2 "test-order.json" ["p1", "p2", "p3"]
      false false false =
      (RunResult.ok true,
        [Event.readRequest "p1", Event.createTmp "p1",
          Event.render "p1" "file:///dev-data/LT5/p1.tar.gz",
          Event.dispatch "p1",
          Event.readRequest "p2", Event.createTmp "p2",
          Event.unlink]) :=
  rfl

/-- C6: for a non-plot MODIS product the renderer receives exactly the
download locator built from the fixed host, the `/MOLT` (MOD) or
`/MOLA` (MYD) base path, the sensor's short name and version joined by a
dot, the zero-padded `YYYY.MM.DD` segment obtained from the date
utility on the acquisition year and day-of-year, and the product id
with an `.hdf` suffix. -/
theorem claim_C6 (env : Env) (td : Doc) (oid pid : String) (info : SensorInfo)
    (rd merged : Doc)
    (hs : env.sensor pid = some info)
    (hr : env.request = some rd)
    (hm : mergeDicts td rd = some merged)
    (hcode : upperStr info.sensor_code = "MOD" ∨ upperStr info.sensor_code = "MYD") :
    Event.render pid (modisURL env pid info (upperStr info.sensor_code)) ∈
      (processProduct env td false oid pid).1 ∧
    modisURL env pid info (upperStr info.sensor_code) =
      "http://" ++ MODIS_HOST ++ "/" ++
        ((if upperStr info.sensor_code = "MOD" then "/MOLT" else "/MOLA") ++
          "/" ++ info.short_name ++ "." ++ info.version ++ "/" ++
          (zfill 4 (toString (env.date_from_doy info.year info.doy).1) ++ "." ++
            zfill 2 (toString (env.date_from_doy info.year info.doy).2.1) ++ "." ++
            zfill 2 (toString (env.date_from_doy info.year info.doy).2.2))) ++
        "/" ++ pid ++ ".hdf" := by
  constructor
  · rw [processProduct_eq_some env td false oid pid info rd merged hs hr hm]
    dsimp only
    have hmodis : (upperStr info.sensor_code == "MOD" ||
        upperStr info.sensor_code == "MYD") = true := by
      rcases hcode with h | h <;> simp [h]
    rw [if_neg (by simp [hmodis]), if_pos (by simp), if_pos hcode]
    rw [finishProduct_eq]
    split <;> simp
  · rfl

/-- Witness for C6 at the spec's `MYD09GQ` scenario: an aqua MODIS
product resolves to base path `/MOLA` and an `.hdf` HTTP locator. -/
theorem claim_C6_witness :
    Event.render "MYD09GQ.A2020100.h08v05.006" (modisURL envMYD
        "MYD09GQ.A2020100.h08v05.006" sensorMYD
        (upperStr sensorMYD.sensor_code)) ∈
      (processProduct envMYD tinyDoc false "t" "MYD09GQ.A2020100.h08v05.006").1 ∧
    modisURL envMYD "MYD09GQ.A2020100.h08v05.006" sensorMYD
        (upperStr sensorMYD.sensor_code) =
      "http://e4ftl01.cr.usgs.gov//MOLA/MYD09GQ.006/2020.04.09/MYD09GQ.A2020100.h08v05.006.hdf" := by
  have h := claim_C6 envMYD tinyDoc "t" "MYD09GQ.A2020100.h08v05.006" sensorMYD
    tinyDoc tinyDoc rfl rfl rfl (Or.inr rfl)
  exact ⟨h.1, h.2.trans (by rfl)⟩

/-- C8: running lines 147-150 against the object heap mutates neither
the template dict, nor the request dict, nor their `options` sub-dicts:
the two `.copy()` calls allocate fresh addresses and every in-place
`update` / subscript-assignment hits only those fresh addresses. -/
theorem claim_C8 (h : Heap) (a_t a_r a_to a_ro : Nat)
    (td rd tOpts rOpts : HDict)
    (hat : h.mem a_t = some td) (har : h.mem a_r = some rd)
    (hto : lookupA td "options" = some (HVal.ref a_to))
    (hro : lookupA rd "options" = some (HVal.ref a_ro))
    (hmem_to : h.mem a_to = some tOpts) (hmem_ro : h.mem a_ro = some rOpts)
    (hlt_t : a_t < h.next) (hlt_r : a_r < h.next)
    (hlt_to : a_to < h.next) (hlt_ro : a_ro < h.next) :
    ∃ h' a_n, mergeProg h a_t a_r = some (h', a_n) ∧
      h'.mem a_t = some td ∧ h'.mem a_r = some rd ∧
      h'.mem a_to = some tOpts ∧ h'.mem a_ro = some rOpts := by
  have ne_t : a_t ≠ h.next := Nat.ne_of_lt hlt_t
  have ne_r : a_r ≠ h.next := Nat.ne_of_lt hlt_r
  have ne_to : a_to ≠ h.next := Nat.ne_of_lt hlt_to
  have ne_ro : a_ro ≠ h.next := Nat.ne_of_lt hlt_ro
  have ne_t1 : a_t ≠ h.next + 1 := Nat.ne_of_lt (Nat.lt_succ_of_lt hlt_t)
  have ne_r1 : a_r ≠ h.next + 1 := Nat.ne_of_lt (Nat.lt_succ_of_lt hlt_r)
  have ne_to1 : a_to ≠ h.next + 1 := Nat.ne_of_lt (Nat.lt_succ_of_lt hlt_to)
  have ne_ro1 : a_ro ≠ h.next + 1 := Nat.ne_of_lt (Nat.lt_succ_of_lt hlt_ro)
  have ne_nn1 : h.next ≠ h.next + 1 := Nat.ne_of_lt (Nat.lt_succ_self _)
  refine ⟨hset (hset ((halloc (hset ((halloc h td).1) h.next
      (pyUpdateA td rd)) tOpts).1) h.next
      (pySetA (pyUpdateA td rd) "options" (HVal.ref (h.next + 1))))
      (h.next + 1) (pyUpdateA tOpts rOpts), h.next, ?_, ?_, ?_, ?_, ?_⟩ <;>
    simp [mergeProg, halloc, hset, hat, har, hto, hro, hmem_to, hmem_ro,
      lookupA_pySetA, refAddr, ne_t, ne_r, ne_to, ne_ro,
      ne_t1, ne_r1, ne_to1, ne_ro1, ne_nn1]

/-- Witness for C8 at the concrete heap `heap0`: template at address 0,
request at 1, their options dicts at 2 and 3, all left intact. -/
theorem claim_C8_witness :
    ∃ h' a_n, mergeProg heap0 0 1 = some (h', a_n) ∧
      h'.mem 0 = some tdHeap ∧ h'.mem 1 = some rdHeap ∧
      h'.mem 2 = some toHeap ∧ h'.mem 3 = some roHeap :=
  claim_C8 heap0 0 1 2 3 tdHeap rdHeap toHeap roHeap rfl rfl rfl rfl rfl rfl
    (by decide) (by decide) (by decide) (by decide)

theorem startsWithL_iff (p s : List Char) :
    startsWithL p s = true ↔ p <+: s := by
  induction p generalizing s with
  | nil => simp [startsWithL, List.nil_prefix]
  | cons pc pt ih =>
    cases s with
    | nil =>
      simp [startsWithL]
    | cons c cs =>
      simp [startsWithL, List.cons_prefix_cons, ih]

theorem replaceFuel_irrel (p r : List Char) :
    ∀ f g s, s.length ≤ f → s.length ≤ g →
      replaceFuel f p r s = replaceFuel g p r s := by
  intro f
  induction f with
  | zero =>
    intro g s hf _
    have : s = [] := List.eq_nil_of_length_eq_zero (Nat.le_zero.1 hf)
    subst this
    cases g <;> simp [replaceFuel]
  | succ f ih =>
    intro g s hf hg
    cases s with
    | nil => cases g <;> simp [replaceFuel]
    | cons c cs =>
      cases g with
      | zero => simp at hg
      | succ g =>
        simp only [replaceFuel]
        split
        · have hd : (cs.drop (p.length - 1)).length ≤ cs.length := by
            rw [List.length_drop]; omega
          have hf' : (cs.drop (p.length - 1)).length ≤ f :=
            le_trans hd (Nat.le_of_succ_le_succ hf)
          have hg' : (cs.drop (p.length - 1)).length ≤ g :=
            le_trans hd (Nat.le_of_succ_le_succ hg)
          rw [ih g _ hf' hg']
        · rw [ih g cs (Nat.le_of_succ_le_succ hf) (Nat.le_of_succ_le_succ hg)]

theorem infix_transfer (r X q : List Char)
    (hq : ∀ c ∈ q, isTokenChar c = true)
    (hr : ∀ c ∈ r, isTokenChar c = false)
    (hqne : q ≠ []) (h : q <:+: (r ++ X)) : q <:+: X := by
  induction r with
  | nil => simpa using h
  | cons c r' ih =>
    rw [List.cons_append, List.infix_cons_iff] at h
    rcases h with h | h
    · cases q with
      | nil => exact absurd rfl hqne
      | cons qh qt =>
        rw [List.cons_prefix_cons] at h
        have h1 := hq qh (by simp)
        have h2 := hr c (by simp)
        rw [h.1] at h1
        rw [h1] at h2
        cases h2
    · exact ih (fun c hc => hr c (by simp [hc])) h

theorem prefix_transfer (p r : List Char)
    (hr : ∀ c ∈ r, isTokenChar c = false) (hrne : r ≠ []) :
    ∀ (f : Nat) (s q : List Char), s.length ≤ f →
      (∀ c ∈ q, isTokenChar c = true) →
      q <+: replaceFuel f p r s → q <+: s := by
  intro f
  induction f with
  | zero =>
    intro s q _ _ h
    simpa [replaceFuel] using h
  | succ f ih =>
    intro s q hf hq h
    cases s with
    | nil => simpa [replaceFuel] using h
    | cons c cs =>
      rw [replaceFuel] at h
      split at h
      · cases q with
        | nil => exact List.nil_prefix
        | cons qh qt =>
          cases r with
          | nil => exact absurd rfl hrne
          | cons rh rt =>
            rw [List.cons_append, List.cons_prefix_cons] at h
            have h1 := hq qh (by simp)
            have h2 := hr rh (by simp)
            rw [h.1] at h1
            rw [h1] at h2
            cases h2
      · cases q with
        | nil => exact List.nil_prefix
        | cons qh qt =>
          rw [List.cons_prefix_cons] at h
          have := ih cs qt (Nat.le_of_succ_le_succ hf)
            (fun c hc => hq c (by simp [hc])) h.2
          rw [List.cons_prefix_cons]
          exact ⟨h.1, this⟩

theorem replace_no_self (p r : List Char)
    (hpne : p ≠ []) (hp : ∀ c ∈ p, isTokenChar c = true)
    (hr : ∀ c ∈ r, isTokenChar c = false) (hrne : r ≠ []) :
    ∀ (f : Nat) (s : List Char), s.length ≤ f →
      ¬ p <:+: replaceFuel f p r s := by
  intro f
  induction f with
  | zero =>
    intro s hf h
    have : s = [] := List.eq_nil_of_length_eq_zero (Nat.le_zero.1 hf)
    subst this
    rw [replaceFuel] at h
    exact hpne (List.eq_nil_of_infix_nil h)
  | succ f ih =>
    intro s hf h
    cases s with
    | nil =>
      rw [replaceFuel] at h
      exact hpne (List.eq_nil_of_infix_nil h)
    | cons c cs =>
      rw [replaceFuel] at h
      split at h
      · have h2 := infix_transfer r _ p hp hr hpne h
        have hd : (cs.drop (p.length - 1)).length ≤ f := by
          rw [List.length_drop]
          have := Nat.le_of_succ_le_succ hf
          omega
        exact ih _ hd h2
      · rename_i hcond
        rw [List.infix_cons_iff] at h
        rcases h with h | h
        · cases p with
          | nil => exact hpne rfl
          | cons ph pt =>
            rw [List.cons_prefix_cons] at h
            have hpt : pt <+: cs := prefix_transfer (ph :: pt) r hr hrne f cs pt
              (Nat.le_of_succ_le_succ hf) (fun c hc => hp c (by simp [hc])) h.2
            have : startsWithL (ph :: pt) (c :: cs) = true := by
              rw [startsWithL_iff, List.cons_prefix_cons]
              exact ⟨h.1, hpt⟩
            simp [this] at hcond
        · exact ih cs (Nat.le_of_succ_le_succ hf) h

theorem replace_preserve (p r q : List Char)
    (hqne : q ≠ []) (hq : ∀ c ∈ q, isTokenChar c = true)
    (hr : ∀ c ∈ r, isTokenChar c = false) (hrne : r ≠ []) :
    ∀ (f : Nat) (s : List Char), s.length ≤ f →
      ¬ q <:+: s → ¬ q <:+: replaceFuel f p r s := by
  intro f
  induction f with
  | zero =>
    intro s _ hns h
    rw [replaceFuel] at h
    exact hns h
  | succ f ih =>
    intro s hf hns h
    cases s with
    | nil =>
      rw [replaceFuel] at h
      exact hqne (List.eq_nil_of_infix_nil h)
    | cons c cs =>
      rw [replaceFuel] at h
      split at h
      · have h2 := infix_transfer r _ q hq hr hqne h
        have hd : (cs.drop (p.length - 1)).length ≤ f := by
          rw [List.length_drop]
          have := Nat.le_of_succ_le_succ hf
          omega
        have hns' : ¬ q <:+: cs.drop (p.length - 1) := by
          intro hx
          exact hns (hx.trans (List.IsSuffix.isInfix
            ((List.drop_suffix _ _).trans (List.suffix_cons c cs))))
        exact ih _ hd hns' h2
      · rw [List.infix_cons_iff] at h
        rcases h with h | h
        · cases q with
          | nil => exact hqne rfl
          | cons qh qt =>
            rw [List.cons_prefix_cons] at h
            have hqt : qt <+: cs := prefix_transfer p r hr hrne f cs qt
              (Nat.le_of_succ_le_succ hf) (fun c hc => hq c (by simp [hc])) h.2
            apply hns
            apply List.IsPrefix.isInfix
            rw [List.cons_prefix_cons]
            exact ⟨h.1, hqt⟩
        · have hns' : ¬ q <:+: cs := fun hx =>
            hns (hx.trans (List.IsSuffix.isInfix (List.suffix_cons c cs)))
          exact ih cs (Nat.le_of_succ_le_succ hf) hns' h

theorem productTypeOf_safe (sname : String) :
    (productTypeOf sname).data ≠ [] ∧
      (∀ c ∈ (productTypeOf sname).data, isTokenChar c = false) ∧
      (∀ c ∈ (productTypeOf sname).data, strSafeChar c = true) := by
  unfold productTypeOf
  split
  · exact ⟨by decide, by decide, by decide⟩
  · split
    · exact ⟨by decide, by decide, by decide⟩
    · exact ⟨by decide, by decide, by decide⟩

theorem render_token_free (orderContents oid pid sname durl : String)
    (ho_ne : oid.data ≠ []) (hp_ne : pid.data ≠ []) (hd_ne : durl.data ≠ [])
    (ho : ∀ c ∈ oid.data, isTokenChar c = false)
    (hp : ∀ c ∈ pid.data, isTokenChar c = false)
    (hd : ∀ c ∈ durl.data, isTokenChar c = false) :
    ∀ tok ∈ placeholderTokens,
      ¬ tok.data <:+: (render orderContents oid pid sname durl).data := by
  intro tok htok
  obtain ⟨hpt_ne, hpt, _⟩ := productTypeOf_safe sname
  have hdata : (render orderContents oid pid sname durl).data =
      pyReplaceL ("DOWNLOAD_URL").data durl.data
        (pyReplaceL ("PRODUCT_TYPE").data (productTypeOf sname).data
          (pyReplaceL ("SCENE_ID").data pid.data
            (pyReplaceL ("ORDER_ID").data oid.data
              (pyReplaceL ("\n").data ("").data orderContents.data)))) := rfl
  rw [hdata]
  simp only [placeholderTokens, List.mem_cons, List.not_mem_nil, or_false] at htok
  rcases htok with rfl | rfl | rfl | rfl
  · have h1 : ¬ ("ORDER_ID").data <:+:
        pyReplaceL ("ORDER_ID").data oid.data
          (pyReplaceL ("\n").data ("").data orderContents.data) :=
      replace_no_self _ _ (by decide) (by decide) ho ho_ne _ _ (Nat.le_refl _)
    have h2 := replace_preserve ("SCENE_ID").data pid.data _ (by decide)
      (by decide) hp hp_ne _ _ (Nat.le_refl _) h1
    have h3 := replace_preserve ("PRODUCT_TYPE").data (productTypeOf sname).data _
      (by decide) (by decide) hpt hpt_ne _ _ (Nat.le_refl _) h2
    exact replace_preserve ("DOWNLOAD_URL").data durl.data _ (by decide)
      (by decide) hd hd_ne _ _ (Nat.le_refl _) h3
  · have h1 : ¬ ("SCENE_ID").data <:+:
        pyReplaceL ("SCENE_ID").data pid.data
          (pyReplaceL ("ORDER_ID").data oid.data
            (pyReplaceL ("\n").data ("").data orderContents.data)) :=
      replace_no_self _ _ (by decide) (by decide) hp hp_ne _ _ (Nat.le_refl _)
    have h3 := replace_preserve ("PRODUCT_TYPE").data (productTypeOf sname).data _
      (by decide) (by decide) hpt hpt_ne _ _ (Nat.le_refl _) h1
    exact replace_preserve ("DOWNLOAD_URL").data durl.data _ (by decide)
      (by decide) hd hd_ne _ _ (Nat.le_refl _) h3
  · have h1 : ¬ ("PRODUCT_TYPE").data <:+:
        pyReplaceL ("PRODUCT_TYPE").data (productTypeOf sname).data
          (pyReplaceL ("SCENE_ID").data pid.data
            (pyReplaceL ("ORDER_ID").data oid.data
              (pyReplaceL ("\n").data ("").data orderContents.data))) :=
      replace_no_self _ _ (by decide) (by decide) hpt hpt_ne _ _ (Nat.le_refl _)
    exact replace_preserve ("DOWNLOAD_URL").data durl.data _ (by decide)
      (by decide) hd hd_ne _ _ (Nat.le_refl _) h1
  · exact replace_no_self _ _ (by decide) (by decide) hd hd_ne _ _ (Nat.le_refl _)

theorem startsWith_cross (x b : List Char)
    (hx : ∀ c ∈ x, isTokenChar c = false) (hxne : x ≠ []) :
    ∀ (p a : List Char), (∀ c ∈ p, isTokenChar c = true) →
      startsWithL p (a ++ (x ++ b)) = startsWithL p a := by
  intro p
  induction p with
  | nil => intro a _; rfl
  | cons pc pt ih =>
    intro a hp
    cases a with
    | nil =>
      cases x with
      | nil => exact absurd rfl hxne
      | cons xh xt =>
        have h1 := hp pc (by simp)
        have h2 := hx xh (by simp)
        have hne : pc ≠ xh := by
          intro he
          rw [he, h2] at h1
          cases h1
        simp [startsWithL, hne]
    | cons ah at' =>
      simp only [List.cons_append, startsWithL, List.append_eq]
      rw [ih at' (fun c hc => hp c (by simp [hc]))]

theorem replace_scan_safe (p r : List Char) (hpne : p ≠ [])
    (hp : ∀ c ∈ p, isTokenChar c = true) :
    ∀ (x b : List Char) (f : Nat), (∀ c ∈ x, isTokenChar c = false) →
      (x ++ b).length ≤ f →
      replaceFuel f p r (x ++ b) = x ++ pyReplaceL p r b := by
  intro x
  induction x with
  | nil =>
    intro b f _ hf
    simp only [List.nil_append]
    exact replaceFuel_irrel p r f b.length b (by simpa using hf) (Nat.le_refl _)
  | cons xh xt ih =>
    intro b f hx hf
    cases f with
    | zero => simp at hf
    | succ f =>
      rw [List.cons_append, replaceFuel]
      cases p with
      | nil => exact absurd rfl hpne
      | cons pc pt =>
        have h1 := hp pc (by simp)
        have h2 := hx xh (by simp)
        have hne : pc ≠ xh := by
          intro he
          rw [he, h2] at h1
          cases h1
        have hsw : startsWithL (pc :: pt) (xh :: (xt ++ b)) = false := by
          simp [startsWithL, hne]
        rw [if_neg (by simp [hsw])]
        rw [ih b f (fun c hc => hx c (by simp [hc])) (by simpa using Nat.le_of_succ_le_succ hf)]
        rfl

theorem replace_split (p r x : List Char) (hpne : p ≠ [])
    (hp : ∀ c ∈ p, isTokenChar c = true)
    (hx : ∀ c ∈ x, isTokenChar c = false) (hxne : x ≠ []) :
    ∀ (f : Nat) (a b : List Char), (a ++ (x ++ b)).length ≤ f →
      replaceFuel f p r (a ++ (x ++ b)) =
        pyReplaceL p r a ++ (x ++ pyReplaceL p r b) := by
  intro f
  induction f with
  | zero =>
    intro a b hf
    cases x with
    | nil => exact absurd rfl hxne
    | cons xh xt => simp at hf
  | succ f ih =>
    intro a b hf
    cases a with
    | nil =>
      simp only [List.nil_append]
      rw [replace_scan_safe p r hpne hp x b (f + 1) hx (by simpa using hf)]
      rfl
    | cons c a' =>
      have hsw : startsWithL p ((c :: a') ++ (x ++ b)) = startsWithL p (c :: a') :=
        startsWith_cross x b hx hxne p (c :: a') hp
      rw [List.cons_append, replaceFuel]
      by_cases hcond : (!p.isEmpty && startsWithL p (c :: (a' ++ (x ++ b)))) = true
      · rw [if_pos hcond]
        have hsw' : startsWithL p (c :: a') = true := by
          rw [← hsw]
          simpa using (Bool.and_elim_right hcond)
        have hple : p.length ≤ a'.length + 1 := by
          have := (startsWithL_iff p (c :: a')).1 hsw'
          simpa using List.IsPrefix.length_le this
        have hdrop : (a' ++ (x ++ b)).drop (p.length - 1) =
            a'.drop (p.length - 1) ++ (x ++ b) :=
          List.drop_append_of_le_length (by omega)
        rw [hdrop]
        have hlen : ((a'.drop (p.length - 1)) ++ (x ++ b)).length ≤ f := by
          have h1 : (a' ++ (x ++ b)).length + 1 ≤ f + 1 := by simpa using hf
          simp only [List.length_append, List.length_drop] at h1 ⊢
          omega
        rw [ih _ _ hlen]
        have hR : pyReplaceL p r (c :: a') =
            r ++ pyReplaceL p r (a'.drop (p.length - 1)) := by
          show replaceFuel (a'.length + 1) p r (c :: a') = _
          rw [replaceFuel, if_pos (by simp [hsw', List.isEmpty_eq_false.2 hpne])]
          congr 1
          exact replaceFuel_irrel p r a'.length _ _
            (by rw [List.length_drop]; omega) (Nat.le_refl _)
        rw [hR]
        simp [List.append_assoc]
      · rw [if_neg hcond]
        rw [ih a' b (by simpa using Nat.le_of_succ_le_succ hf)]
        have hR : pyReplaceL p r (c :: a') = c :: pyReplaceL p r a' := by
          show replaceFuel (a'.length + 1) p r (c :: a') = _
          rw [replaceFuel]
          rw [if_neg (by
            intro hcc
            apply hcond
            have h2 : startsWithL p (c :: a') = true := by
              simpa using (Bool.and_elim_right hcc)
            rw [← hsw] at h2
            simp only [List.cons_append] at h2
            simp [h2, List.isEmpty_eq_false.2 hpne])]
          rfl
        rw [hR]
        rfl

theorem safeValChar_props (c : Char) (h : safeValChar c = true) :
    isTokenChar c = false ∧ c ≠ '"' ∧ c ≠ '\\' ∧ ¬ c.toNat < 32 := by
  simp only [safeValChar, Bool.and_eq_true, bne_iff_ne, ne_eq,
    Bool.not_eq_true', decide_eq_false_iff_not] at h
  exact ⟨h.1.1.1, h.1.1.2, h.1.2, h.2⟩

theorem strSafeChar_props (c : Char) (h : strSafeChar c = true) :
    c ≠ '"' ∧ c ≠ '\\' ∧ ¬ c.toNat < 32 := by
  simp only [strSafeChar, Bool.and_eq_true, bne_iff_ne, ne_eq,
    Bool.not_eq_true', decide_eq_false_iff_not] at h
  exact ⟨h.1.1, h.1.2, h.2⟩

theorem safeValChar_strSafe (c : Char) (h : safeValChar c = true) :
    strSafeChar c = true := by
  simp only [safeValChar, Bool.and_eq_true] at h
  simp only [strSafeChar, Bool.and_eq_true]
  exact ⟨⟨h.1.1.2, h.1.2⟩, h.2⟩

theorem strBody_safe (s : List Char) (hs : ∀ c ∈ s, strSafeChar c = true) :
    ∀ rest, strBody (s ++ '"' :: rest) = some (s, rest) := by
  induction s with
  | nil =>
    intro rest
    rfl
  | cons c s' ih =>
    intro rest
    obtain ⟨h1, h2, h3⟩ := strSafeChar_props c (hs c (by simp))
    rw [List.cons_append]
    simp only [strBody, if_neg h1, if_neg h2, if_neg h3]
    rw [ih (fun d hd => hs d (by simp [hd])) rest]



theorem parseVal_str (g : Nat) (v rest : List Char)
    (hv : ∀ c ∈ v, strSafeChar c = true) :
    parseVal (g + 1) (' ' :: '"' :: (v ++ ('"' :: rest))) = some (JVal.str ⟨v⟩, rest) := by
  show (match strBody (v ++ ('"' :: rest)) with
        | none => none
        | some (s, rest') => some (JVal.str ⟨s⟩, rest')) = some (JVal.str ⟨v⟩, rest)
  rw [strBody_safe v hv]

theorem parseMembers_strMember (g : Nat) (cs k v rest : List Char)
    (acc : List (String × JVal))
    (hcs : skipWs cs = '"' :: (k ++ ('"' :: ':' :: ' ' :: '"' :: (v ++ ('"' :: rest)))))
    (hk : ∀ c ∈ k, strSafeChar c = true) (hv : ∀ c ∈ v, strSafeChar c = true) :
    parseMembers (g + 2) cs acc =
      match skipWs rest with
      | ',' :: rest2 => parseMembers (g + 1) rest2 (acc ++ [(⟨k⟩, JVal.str ⟨v⟩)])
      | '\x7d' :: rest2 => some (JVal.obj (acc ++ [(⟨k⟩, JVal.str ⟨v⟩)]), rest2)
      | _ => none := by
  show (match skipWs cs with
        | '"' :: rest0 =>
          (match strBody rest0 with
           | none => none
           | some (kk, rest') =>
             (match skipWs rest' with
              | ':' :: rest2 =>
                (match parseVal (g + 1) rest2 with
                 | none => none
                 | some (vv, rest3) =>
                   (match skipWs rest3 with
                    | ',' :: rest4 => parseMembers (g + 1) rest4 (acc ++ [(String.mk kk, vv)])
                    | '\x7d' :: rest4 => some (JVal.obj (acc ++ [(String.mk kk, vv)]), rest4)
                    | _ => none))
              | _ => none))
        | _ => none) = _
  rw [hcs]
  show (match strBody (k ++ ('"' :: ':' :: ' ' :: '"' :: (v ++ ('"' :: rest)))) with
        | none => none
        | some (kk, rest') =>
          (match skipWs rest' with
           | ':' :: rest2 =>
             (match parseVal (g + 1) rest2 with
              | none => none
              | some (vv, rest3) =>
                (match skipWs rest3 with
                 | ',' :: rest4 => parseMembers (g + 1) rest4 (acc ++ [(String.mk kk, vv)])
                 | '\x7d' :: rest4 => some (JVal.obj (acc ++ [(String.mk kk, vv)]), rest4)
                 | _ => none))
           | _ => none)) = _
  rw [strBody_safe k hk]
  show (match parseVal (g + 1) (' ' :: '"' :: (v ++ ('"' :: rest))) with
        | none => none
        | some (vv, rest3) =>
          (match skipWs rest3 with
           | ',' :: rest4 => parseMembers (g + 1) rest4 (acc ++ [(String.mk k, vv)])
           | '\x7d' :: rest4 => some (JVal.obj (acc ++ [(String.mk k, vv)]), rest4)
           | _ => none)) = _
  rw [parseVal_str g v rest hv]

theorem parseMembers_objMember (g : Nat) (cs k rest : List Char)
    (acc : List (String × JVal))
    (hcs : skipWs cs = '"' :: (k ++ ('"' :: ':' :: ' ' :: '\x7b' :: '\x7d' :: rest)))
    (hk : ∀ c ∈ k, strSafeChar c = true) :
    parseMembers (g + 2) cs acc =
      match skipWs rest with
      | ',' :: rest2 => parseMembers (g + 1) rest2 (acc ++ [(⟨k⟩, JVal.obj [])])
      | '\x7d' :: rest2 => some (JVal.obj (acc ++ [(⟨k⟩, JVal.obj [])]), rest2)
      | _ => none := by
  show (match skipWs cs with
        | '"' :: rest0 =>
          (match strBody rest0 with
           | none => none
           | some (kk, rest') =>
             (match skipWs rest' with
              | ':' :: rest2 =>
                (match parseVal (g + 1) rest2 with
                 | none => none
                 | some (vv, rest3) =>
                   (match skipWs rest3 with
                    | ',' :: rest4 => parseMembers (g + 1) rest4 (acc ++ [(String.mk kk, vv)])
                    | '\x7d' :: rest4 => some (JVal.obj (acc ++ [(String.mk kk, vv)]), rest4)
                    | _ => none))
              | _ => none))
        | _ => none) = _
  rw [hcs]
  show (match strBody (k ++ ('"' :: ':' :: ' ' :: '\x7b' :: '\x7d' :: rest)) with
        | none => none
        | some (kk, rest') =>
          (match skipWs rest' with
           | ':' :: rest2 =>
             (match parseVal (g + 1) rest2 with
              | none => none
              | some (vv, rest3) =>
                (match skipWs rest3 with
                 | ',' :: rest4 => parseMembers (g + 1) rest4 (acc ++ [(String.mk kk, vv)])
                 | '\x7d' :: rest4 => some (JVal.obj (acc ++ [(String.mk kk, vv)]), rest4)
                 | _ => none))
           | _ => none)) = _
  rw [strBody_safe k hk]
  rfl

theorem parse_skeleton (g : Nat) (oid pid pt durl : List Char)
    (ho : ∀ c ∈ oid, strSafeChar c = true) (hp : ∀ c ∈ pid, strSafeChar c = true)
    (hpt : ∀ c ∈ pt, strSafeChar c = true) (hd : ∀ c ∈ durl, strSafeChar c = true) :
    parseVal (g + 11)
      ('\x7b' :: ' ' :: ' ' :: ' ' :: ' ' :: '"' :: ("download_url".data ++ '"' :: ':' :: ' ' :: '"' :: (durl ++ '"' :: ',' :: ' ' :: ' ' :: ' ' :: ' ' :: '"' :: ("options".data ++ '"' :: ':' :: ' ' :: '\x7b' :: '\x7d' :: ',' :: ' ' :: ' ' :: ' ' :: ' ' :: '"' :: ("orderid".data ++ '"' :: ':' :: ' ' :: '"' :: (oid ++ '"' :: ',' :: ' ' :: ' ' :: ' ' :: ' ' :: '"' :: ("product_type".data ++ '"' :: ':' :: ' ' :: '"' :: (pt ++ '"' :: ',' :: ' ' :: ' ' :: ' ' :: ' ' :: '"' :: ("scene".data ++ '"' :: ':' :: ' ' :: '"' :: (pid ++ '"' :: '\x7d' :: [])))))))))) =
      some (JVal.obj [("download_url", JVal.str ⟨durl⟩), ("options", JVal.obj []),
        ("orderid", JVal.str ⟨oid⟩), ("product_type", JVal.str ⟨pt⟩),
        ("scene", JVal.str ⟨pid⟩)], []) := by
  have h1 := parseMembers_strMember (g + 8)
    ('"' :: ("download_url".data ++ '"' :: ':' :: ' ' :: '"' :: (durl ++ '"' :: ',' :: ' ' :: ' ' :: ' ' :: ' ' :: '"' :: ("options".data ++ '"' :: ':' :: ' ' :: '\x7b' :: '\x7d' :: ',' :: ' ' :: ' ' :: ' ' :: ' ' :: '"' :: ("orderid".data ++ '"' :: ':' :: ' ' :: '"' :: (oid ++ '"' :: ',' :: ' ' :: ' ' :: ' ' :: ' ' :: '"' :: ("product_type".data ++ '"' :: ':' :: ' ' :: '"' :: (pt ++ '"' :: ',' :: ' ' :: ' ' :: ' ' :: ' ' :: '"' :: ("scene".data ++ '"' :: ':' :: ' ' :: '"' :: (pid ++ '"' :: '\x7d' :: []))))))))))
    ("download_url".data) durl
    (',' :: ' ' :: ' ' :: ' ' :: ' ' :: '"' :: ("options".data ++ '"' :: ':' :: ' ' :: '\x7b' :: '\x7d' :: ',' :: ' ' :: ' ' :: ' ' :: ' ' :: '"' :: ("orderid".data ++ '"' :: ':' :: ' ' :: '"' :: (oid ++ '"' :: ',' :: ' ' :: ' ' :: ' ' :: ' ' :: '"' :: ("product_type".data ++ '"' :: ':' :: ' ' :: '"' :: (pt ++ '"' :: ',' :: ' ' :: ' ' :: ' ' :: ' ' :: '"' :: ("scene".data ++ '"' :: ':' :: ' ' :: '"' :: (pid ++ '"' :: '\x7d' :: []))))))))
    [] rfl (by decide) hd
  have h2 := parseMembers_objMember (g + 7)
    (' ' :: ' ' :: ' ' :: ' ' :: '"' :: ("options".data ++ '"' :: ':' :: ' ' :: '\x7b' :: '\x7d' :: ',' :: ' ' :: ' ' :: ' ' :: ' ' :: '"' :: ("orderid".data ++ '"' :: ':' :: ' ' :: '"' :: (oid ++ '"' :: ',' :: ' ' :: ' ' :: ' ' :: ' ' :: '"' :: ("product_type".data ++ '"' :: ':' :: ' ' :: '"' :: (pt ++ '"' :: ',' :: ' ' :: ' ' :: ' ' :: ' ' :: '"' :: ("scene".data ++ '"' :: ':' :: ' ' :: '"' :: (pid ++ '"' :: '\x7d' :: []))))))))
    ("options".data)
    (',' :: ' ' :: ' ' :: ' ' :: ' ' :: '"' :: ("orderid".data ++ '"' :: ':' :: ' ' :: '"' :: (oid ++ '"' :: ',' :: ' ' :: ' ' :: ' ' :: ' ' :: '"' :: ("product_type".data ++ '"' :: ':' :: ' ' :: '"' :: (pt ++ '"' :: ',' :: ' ' :: ' ' :: ' ' :: ' ' :: '"' :: ("scene".data ++ '"' :: ':' :: ' ' :: '"' :: (pid ++ '"' :: '\x7d' :: [])))))))
    [("download_url", JVal.str ⟨durl⟩)] rfl (by decide)
  have h3 := parseMembers_strMember (g + 6)
    (' ' :: ' ' :: ' ' :: ' ' :: '"' :: ("orderid".data ++ '"' :: ':' :: ' ' :: '"' :: (oid ++ '"' :: ',' :: ' ' :: ' ' :: ' ' :: ' ' :: '"' :: ("product_type".data ++ '"' :: ':' :: ' ' :: '"' :: (pt ++ '"' :: ',' :: ' ' :: ' ' :: ' ' :: ' ' :: '"' :: ("scene".data ++ '"' :: ':' :: ' ' :: '"' :: (pid ++ '"' :: '\x7d' :: [])))))))
    ("orderid".data) oid
    (',' :: ' ' :: ' ' :: ' ' :: ' ' :: '"' :: ("product_type".data ++ '"' :: ':' :: ' ' :: '"' :: (pt ++ '"' :: ',' :: ' ' :: ' ' :: ' ' :: ' ' :: '"' :: ("scene".data ++ '"' :: ':' :: ' ' :: '"' :: (pid ++ '"' :: '\x7d' :: [])))))
    [("download_url", JVal.str ⟨durl⟩), ("options", JVal.obj [])] rfl (by decide) ho
  have h4 := parseMembers_strMember (g + 5)
    (' ' :: ' ' :: ' ' :: ' ' :: '"' :: ("product_type".data ++ '"' :: ':' :: ' ' :: '"' :: (pt ++ '"' :: ',' :: ' ' :: ' ' :: ' ' :: ' ' :: '"' :: ("scene".data ++ '"' :: ':' :: ' ' :: '"' :: (pid ++ '"' :: '\x7d' :: [])))))
    ("product_type".data) pt
    (',' :: ' ' :: ' ' :: ' ' :: ' ' :: '"' :: ("scene".data ++ '"' :: ':' :: ' ' :: '"' :: (pid ++ '"' :: '\x7d' :: [])))
    [("download_url", JVal.str ⟨durl⟩), ("options", JVal.obj []),
      ("orderid", JVal.str ⟨oid⟩)] rfl (by decide) hpt
  have h5 := parseMembers_strMember (g + 4)
    (' ' :: ' ' :: ' ' :: ' ' :: '"' :: ("scene".data ++ '"' :: ':' :: ' ' :: '"' :: (pid ++ '"' :: '\x7d' :: [])))
    ("scene".data) pid
    ('\x7d' :: [])
    [("download_url", JVal.str ⟨durl⟩), ("options", JVal.obj []),
      ("orderid", JVal.str ⟨oid⟩), ("product_type", JVal.str ⟨pt⟩)] rfl (by decide) hp
  exact h1.trans (h2.trans (h3.trans (h4.trans h5)))

/-- C9 amended: restricted to substitution values that are nonempty and made of
safe characters (no uppercase letters or underscores, i.e. no placeholder-token
characters, and no quote, backslash or control character), rendering is a
fixed-point after re-parse: the rendered text of the modelled template contains
no literal placeholder token anywhere (hence in no string value), and re-parsing
it succeeds, yielding exactly the merged object with the four fields
substituted. The token-freeness conjunct holds for every serialized order text,
not only the modelled template. -/
theorem claim_C9_amended (oid pid sname durl : String)
    (ho_ne : oid.data ≠ []) (hp_ne : pid.data ≠ []) (hd_ne : durl.data ≠ [])
    (ho : ∀ c ∈ oid.data, safeValChar c = true)
    (hp : ∀ c ∈ pid.data, safeValChar c = true)
    (hd : ∀ c ∈ durl.data, safeValChar c = true) :
    (∀ orderContents : String, ∀ tok ∈ placeholderTokens,
      ¬ tok.data <:+: (render orderContents oid pid sname durl).data) ∧
    parseJson (render (serializeOrder templateModel) oid pid sname durl) =
      some (JVal.obj [("download_url", JVal.str durl), ("options", JVal.obj []),
        ("orderid", JVal.str oid),
        ("product_type", JVal.str (productTypeOf sname)),
        ("scene", JVal.str pid)]) := by
  have hoT : ∀ c ∈ oid.data, isTokenChar c = false :=
    fun c hc => (safeValChar_props c (ho c hc)).1
  have hpT : ∀ c ∈ pid.data, isTokenChar c = false :=
    fun c hc => (safeValChar_props c (hp c hc)).1
  have hdT : ∀ c ∈ durl.data, isTokenChar c = false :=
    fun c hc => (safeValChar_props c (hd c hc)).1
  have hoS : ∀ c ∈ oid.data, strSafeChar c = true :=
    fun c hc => safeValChar_strSafe c (ho c hc)
  have hpS : ∀ c ∈ pid.data, strSafeChar c = true :=
    fun c hc => safeValChar_strSafe c (hp c hc)
  have hdS : ∀ c ∈ durl.data, strSafeChar c = true :=
    fun c hc => safeValChar_strSafe c (hd c hc)
  constructor
  · intro oc tok htok
    exact render_token_free oc oid pid sname durl ho_ne hp_ne hd_ne hoT hpT hdT tok htok
  · obtain ⟨hpt_ne, hptT, hptS⟩ := productTypeOf_safe sname
    have e3 : pyReplaceL ("SCENE_ID").data pid.data
        (("\x7b    \"download_url\": \"DOWNLOAD_URL\",    \"options\": \x7b\x7d,    \"orderid\": \"").data ++ (oid.data ++ ("\",    \"product_type\": \"PRODUCT_TYPE\",    \"scene\": \"SCENE_ID\"\x7d").data)) =
        ("\x7b    \"download_url\": \"DOWNLOAD_URL\",    \"options\": \x7b\x7d,    \"orderid\": \"").data ++ (oid.data ++ (("\",    \"product_type\": \"PRODUCT_TYPE\",    \"scene\": \"").data ++ (pid.data ++ ("\"\x7d").data))) := by
      refine Eq.trans (replace_split ("SCENE_ID").data pid.data oid.data
        (by decide) (by decide) hoT ho_ne _ ("\x7b    \"download_url\": \"DOWNLOAD_URL\",    \"options\": \x7b\x7d,    \"orderid\": \"").data ("\",    \"product_type\": \"PRODUCT_TYPE\",    \"scene\": \"SCENE_ID\"\x7d").data (Nat.le_refl _)) ?_
      rfl
    have e4 : pyReplaceL ("PRODUCT_TYPE").data (productTypeOf sname).data
        (("\x7b    \"download_url\": \"DOWNLOAD_URL\",    \"options\": \x7b\x7d,    \"orderid\": \"").data ++ (oid.data ++ (("\",    \"product_type\": \"PRODUCT_TYPE\",    \"scene\": \"").data ++ (pid.data ++ ("\"\x7d").data)))) =
        ("\x7b    \"download_url\": \"DOWNLOAD_URL\",    \"options\": \x7b\x7d,    \"orderid\": \"").data ++ (oid.data ++ (("\",    \"product_type\": \"").data ++ ((productTypeOf sname).data ++
          (("\",    \"scene\": \"").data ++ (pid.data ++ ("\"\x7d").data))))) := by
      refine Eq.trans (replace_split ("PRODUCT_TYPE").data (productTypeOf sname).data
        oid.data (by decide) (by decide) hoT ho_ne _ ("\x7b    \"download_url\": \"DOWNLOAD_URL\",    \"options\": \x7b\x7d,    \"orderid\": \"").data
        (("\",    \"product_type\": \"PRODUCT_TYPE\",    \"scene\": \"").data ++ (pid.data ++ ("\"\x7d").data)) (Nat.le_refl _)) ?_
      rw [show pyReplaceL ("PRODUCT_TYPE").data (productTypeOf sname).data
          (("\",    \"product_type\": \"PRODUCT_TYPE\",    \"scene\": \"").data ++ (pid.data ++ ("\"\x7d").data)) =
          pyReplaceL ("PRODUCT_TYPE").data (productTypeOf sname).data ("\",    \"product_type\": \"PRODUCT_TYPE\",    \"scene\": \"").data ++
            (pid.data ++ pyReplaceL ("PRODUCT_TYPE").data (productTypeOf sname).data ("\"\x7d").data)
        from replace_split ("PRODUCT_TYPE").data (productTypeOf sname).data pid.data
          (by decide) (by decide) hpT hp_ne _ ("\",    \"product_type\": \"PRODUCT_TYPE\",    \"scene\": \"").data ("\"\x7d").data (Nat.le_refl _)]
      rw [show pyReplaceL ("PRODUCT_TYPE").data (productTypeOf sname).data ("\x7b    \"download_url\": \"DOWNLOAD_URL\",    \"options\": \x7b\x7d,    \"orderid\": \"").data =
          ("\x7b    \"download_url\": \"DOWNLOAD_URL\",    \"options\": \x7b\x7d,    \"orderid\": \"").data from rfl]
      rw [show pyReplaceL ("PRODUCT_TYPE").data (productTypeOf sname).data ("\",    \"product_type\": \"PRODUCT_TYPE\",    \"scene\": \"").data =
          ("\",    \"product_type\": \"").data ++ ((productTypeOf sname).data ++ ("\",    \"scene\": \"").data) from rfl]
      rw [show pyReplaceL ("PRODUCT_TYPE").data (productTypeOf sname).data ("\"\x7d").data =
          ("\"\x7d").data from rfl]
      simp [List.append_assoc]
    have e5 : pyReplaceL ("DOWNLOAD_URL").data durl.data
        (("\x7b    \"download_url\": \"DOWNLOAD_URL\",    \"options\": \x7b\x7d,    \"orderid\": \"").data ++ (oid.data ++ (("\",    \"product_type\": \"").data ++ ((productTypeOf sname).data ++
          (("\",    \"scene\": \"").data ++ (pid.data ++ ("\"\x7d").data)))))) =
        ("\x7b    \"download_url\": \"").data ++ (durl.data ++ (("\",    \"options\": \x7b\x7d,    \"orderid\": \"").data ++ (oid.data ++ (("\",    \"product_type\": \"").data ++ ((productTypeOf sname).data ++ (("\",    \"scene\": \"").data ++ (pid.data ++ ("\"\x7d").data))))))) := by
      refine Eq.trans (replace_split ("DOWNLOAD_URL").data durl.data
        oid.data (by decide) (by decide) hoT ho_ne _ ("\x7b    \"download_url\": \"DOWNLOAD_URL\",    \"options\": \x7b\x7d,    \"orderid\": \"").data
        (("\",    \"product_type\": \"").data ++ ((productTypeOf sname).data ++
          (("\",    \"scene\": \"").data ++ (pid.data ++ ("\"\x7d").data)))) (Nat.le_refl _)) ?_
      rw [show pyReplaceL ("DOWNLOAD_URL").data durl.data
          (("\",    \"product_type\": \"").data ++ ((productTypeOf sname).data ++
            (("\",    \"scene\": \"").data ++ (pid.data ++ ("\"\x7d").data)))) =
          pyReplaceL ("DOWNLOAD_URL").data durl.data ("\",    \"product_type\": \"").data ++
            ((productTypeOf sname).data ++ pyReplaceL ("DOWNLOAD_URL").data durl.data
              (("\",    \"scene\": \"").data ++ (pid.data ++ ("\"\x7d").data)))
        from replace_split ("DOWNLOAD_URL").data durl.data (productTypeOf sname).data
          (by decide) (by decide) hptT hpt_ne _ ("\",    \"product_type\": \"").data
          (("\",    \"scene\": \"").data ++ (pid.data ++ ("\"\x7d").data)) (Nat.le_refl _)]
      rw [show pyReplaceL ("DOWNLOAD_URL").data durl.data
          (("\",    \"scene\": \"").data ++ (pid.data ++ ("\"\x7d").data)) =
          pyReplaceL ("DOWNLOAD_URL").data durl.data ("\",    \"scene\": \"").data ++
            (pid.data ++ pyReplaceL ("DOWNLOAD_URL").data durl.data ("\"\x7d").data)
        from replace_split ("DOWNLOAD_URL").data durl.data pid.data
          (by decide) (by decide) hpT hp_ne _ ("\",    \"scene\": \"").data ("\"\x7d").data (Nat.le_refl _)]
      rw [show pyReplaceL ("DOWNLOAD_URL").data durl.data ("\x7b    \"download_url\": \"DOWNLOAD_URL\",    \"options\": \x7b\x7d,    \"orderid\": \"").data =
          ("\x7b    \"download_url\": \"").data ++ (durl.data ++ ("\",    \"options\": \x7b\x7d,    \"orderid\": \"").data) from rfl]
      rw [show pyReplaceL ("DOWNLOAD_URL").data durl.data ("\",    \"product_type\": \"").data =
          ("\",    \"product_type\": \"").data from rfl]
      rw [show pyReplaceL ("DOWNLOAD_URL").data durl.data ("\",    \"scene\": \"").data =
          ("\",    \"scene\": \"").data from rfl]
      rw [show pyReplaceL ("DOWNLOAD_URL").data durl.data ("\"\x7d").data =
          ("\"\x7d").data from rfl]
      simp [List.append_assoc]
    have hdecomp : (render (serializeOrder templateModel) oid pid sname durl).data =
        ("\x7b    \"download_url\": \"").data ++ (durl.data ++ (("\",    \"options\": \x7b\x7d,    \"orderid\": \"").data ++ (oid.data ++ (("\",    \"product_type\": \"").data ++ ((productTypeOf sname).data ++ (("\",    \"scene\": \"").data ++ (pid.data ++ ("\"\x7d").data))))))) := by
      show pyReplaceL ("DOWNLOAD_URL").data durl.data
        (pyReplaceL ("PRODUCT_TYPE").data (productTypeOf sname).data
          (pyReplaceL ("SCENE_ID").data pid.data
            (pyReplaceL ("ORDER_ID").data oid.data
              (pyReplaceL ("\n").data ("").data
                (serializeOrder templateModel).data)))) = _
      rw [show pyReplaceL ("ORDER_ID").data oid.data
          (pyReplaceL ("\n").data ("").data (serializeOrder templateModel).data) =
          ("\x7b    \"download_url\": \"DOWNLOAD_URL\",    \"options\": \x7b\x7d,    \"orderid\": \"").data ++ (oid.data ++ ("\",    \"product_type\": \"PRODUCT_TYPE\",    \"scene\": \"SCENE_ID\"\x7d").data) from rfl]
      rw [e3, e4, e5]
    obtain ⟨g, hg⟩ : ∃ g, (("\x7b    \"download_url\": \"").data ++ (durl.data ++ (("\",    \"options\": \x7b\x7d,    \"orderid\": \"").data ++ (oid.data ++ (("\",    \"product_type\": \"").data ++ ((productTypeOf sname).data ++ (("\",    \"scene\": \"").data ++ (pid.data ++ ("\"\x7d").data)))))))).length + 1 = g + 11 := by
      refine ⟨(("\x7b    \"download_url\": \"").data ++ (durl.data ++ (("\",    \"options\": \x7b\x7d,    \"orderid\": \"").data ++ (oid.data ++ (("\",    \"product_type\": \"").data ++ ((productTypeOf sname).data ++ (("\",    \"scene\": \"").data ++ (pid.data ++ ("\"\x7d").data)))))))).length - 10, ?_⟩
      have h22 : (("\x7b    \"download_url\": \"").data).length = 22 := rfl
      simp only [List.length_append, h22]
      omega
    show parseJson (render (serializeOrder templateModel) oid pid sname durl) = _
    unfold parseJson
    rw [hdecomp, hg]
    rw [show (("\x7b    \"download_url\": \"").data ++ (durl.data ++ (("\",    \"options\": \x7b\x7d,    \"orderid\": \"").data ++ (oid.data ++ (("\",    \"product_type\": \"").data ++ ((productTypeOf sname).data ++ (("\",    \"scene\": \"").data ++ (pid.data ++ ("\"\x7d").data)))))))) = ('\x7b' :: ' ' :: ' ' :: ' ' :: ' ' :: '"' :: ("download_url".data ++ '"' :: ':' :: ' ' :: '"' :: (durl.data ++ '"' :: ',' :: ' ' :: ' ' :: ' ' :: ' ' :: '"' :: ("options".data ++ '"' :: ':' :: ' ' :: '\x7b' :: '\x7d' :: ',' :: ' ' :: ' ' :: ' ' :: ' ' :: '"' :: ("orderid".data ++ '"' :: ':' :: ' ' :: '"' :: (oid.data ++ '"' :: ',' :: ' ' :: ' ' :: ' ' :: ' ' :: '"' :: ("product_type".data ++ '"' :: ':' :: ' ' :: '"' :: ((productTypeOf sname).data ++ '"' :: ',' :: ' ' :: ' ' :: ' ' :: ' ' :: '"' :: ("scene".data ++ '"' :: ':' :: ' ' :: '"' :: (pid.data ++ '"' :: '\x7d' :: [])))))))))) from rfl]
    rw [parse_skeleton g oid.data pid.data (productTypeOf sname).data durl.data
      hoS hpS hptS hdS]
    rfl

/-- C9 counterexample: the claim quantifies over every substituted value, but a
product id that itself contains a placeholder token defeats it. With scene id
"xORDER_IDy" the rendered order re-parses successfully, yet its "scene" string
value still contains the literal token ORDER_ID (the SCENE_ID substitution runs
after the ORDER_ID one, so the embedded token survives to the output). -/
theorem claim_C9_counterexample :
    parseJson (render (serializeOrder templateModel) "t1" "xORDER_IDy" "tm"
        "file:///d/f.tar.gz") =
      some (JVal.obj [("download_url", JVal.str "file:///d/f.tar.gz"),
        ("options", JVal.obj []), ("orderid", JVal.str "t1"),
        ("product_type", JVal.str "landsat"), ("scene", JVal.str "xORDER_IDy")]) ∧
    ("ORDER_ID" : String).data <:+: ("xORDER_IDy" : String).data := by
  refine ⟨rfl, ("x" : String).data, ("y" : String).data, rfl⟩

/-- Witness for C9 amended at concrete safe inputs: order id "t-1", product id
"lt50290302002123", sensor "tm", download url "file:///data/f.tar.gz". -/
theorem claim_C9_witness :
    (("t-1" : String).data ≠ [] ∧ ("lt50290302002123" : String).data ≠ [] ∧
      ("file:///data/f.tar.gz" : String).data ≠ [] ∧
      (∀ c ∈ ("t-1" : String).data, safeValChar c = true) ∧
      (∀ c ∈ ("lt50290302002123" : String).data, safeValChar c = true) ∧
      (∀ c ∈ ("file:///data/f.tar.gz" : String).data, safeValChar c = true)) ∧
    ((∀ orderContents : String, ∀ tok ∈ placeholderTokens,
        ¬ tok.data <:+: (render orderContents "t-1" "lt50290302002123" "tm"
          "file:///data/f.tar.gz").data) ∧
      parseJson (render (serializeOrder templateModel) "t-1" "lt50290302002123" "tm"
          "file:///data/f.tar.gz") =
        some (JVal.obj [("download_url", JVal.str "file:///data/f.tar.gz"),
          ("options", JVal.obj []), ("orderid", JVal.str "t-1"),
          ("product_type", JVal.str (productTypeOf "tm")),
          ("scene", JVal.str "lt50290302002123")])) :=
  ⟨⟨by decide, by decide, by decide, by decide, by decide, by decide⟩,
    claim_C9_amended "t-1" "lt50290302002123" "tm" "file:///data/f.tar.gz"
      (by decide) (by decide) (by decide) (by decide) (by decide) (by decide)⟩
